import Mathlib

/-
Verification of the season-reconciliation and recommendation engine of the
basketball analytics backend (src/app/main.py).

Modelling conventions for the shallow embedding:
- Python floats are modelled as exact rationals (ℚ); `round(x, n)` is decimal
  round-half-to-even (`pyRound`).
- A scalar cell of an upstream tabular row is a `PyVal`: absent/None, NaN, an
  int, or a float.  String-typed columns (SEASON_ID, TEAM_ABBREVIATION) are
  carried as dedicated fields of `Row`; numeric stat columns live in the
  `stats` mapping, and `Row.get` returns None for a missing key, like
  `pandas.Series.get`.
- A pandas row (a Series with more than one column) raises
  `ValueError: The truth value of a Series is ambiguous` when truth-tested;
  `rowTruth` embeds that as `PyErr.seriesTruthAmbiguous`.  Every `Row` in this
  development stands for a Series with at least two columns.
- pydantic validation of an `Optional[int]` field accepts None, ints and
  integral floats, and rejects NaN and fractional floats (`validateOptInt`).
- Fallible code returns `Except PyErr`; code that cannot raise is total.
-/

/-- Scalar value of one cell of an upstream row: missing/None, the float NaN,
an int, or a finite float (modelled as an exact rational). -/
inductive PyVal where
  | vNone : PyVal
  | vNaN : PyVal
  | vInt : ℤ → PyVal
  | vFloat : ℚ → PyVal
deriving DecidableEq

/-- Exceptions of the embedded Python fragments. -/
inductive PyErr where
  | seriesTruthAmbiguous : PyErr
  | validationError : PyErr
  | nameOrStaleMeta : PyErr
  | attributeError : PyErr
deriving DecidableEq

instance {ε α : Type} [DecidableEq ε] [DecidableEq α] : DecidableEq (Except ε α) := fun a b =>
  match a, b with
  | .error e, .error f =>
    if h : e = f then isTrue (by rw [h]) else isFalse (by intro hc; cases hc; exact h rfl)
  | .ok x, .ok y =>
    if h : x = y then isTrue (by rw [h]) else isFalse (by intro hc; cases hc; exact h rfl)
  | .error _, .ok _ => isFalse (by intro hc; cases hc)
  | .ok _, .error _ => isFalse (by intro hc; cases hc)

/-- Decimal round-half-to-even of a rational to an integer, the rounding mode
of Python's builtin `round`. -/
def roundHalfToEven (x : ℚ) : ℤ :=
  if x - x.floor < 1/2 then x.floor
  else if 1/2 < x - x.floor then x.floor + 1
  else if x.floor % 2 = 0 then x.floor else x.floor + 1

/-- Python `round(x, p)` for nonnegative `p`: round-half-to-even at `p`
decimal digits. -/
def pyRound (x : ℚ) (p : ℕ) : ℚ := (roundHalfToEven (x * 10 ^ p) : ℚ) / 10 ^ p

theorem rat_floor_le (x : ℚ) : (x.floor : ℚ) ≤ x :=
  (Rat.le_floor (z := x.floor) (r := x)).1 le_rfl

theorem rat_lt_floor_add_one (x : ℚ) : x < x.floor + 1 := by
  by_contra h
  push_neg at h
  have h2 : (x.floor + 1 : ℤ) ≤ x.floor := (Rat.le_floor).2 (by push_cast; linarith)
  omega

theorem roundHalfToEven_le (x : ℚ) : (roundHalfToEven x : ℚ) ≤ x + 1/2 := by
  have h1 := rat_floor_le x
  have h2 := rat_lt_floor_add_one x
  unfold roundHalfToEven
  split_ifs <;> push_cast <;> linarith

theorem roundHalfToEven_ge (x : ℚ) : x - 1/2 ≤ (roundHalfToEven x : ℚ) := by
  have h1 := rat_floor_le x
  have h2 := rat_lt_floor_add_one x
  unfold roundHalfToEven
  split_ifs <;> push_cast <;> linarith

theorem pyRound_le (x : ℚ) (p : ℕ) : pyRound x p ≤ x + 1 / (2 * 10 ^ p) := by
  have hp : (0:ℚ) < 10 ^ p := by positivity
  have h := roundHalfToEven_le (x * 10 ^ p)
  unfold pyRound
  rw [div_le_iff₀ hp]
  calc (roundHalfToEven (x * 10 ^ p) : ℚ) ≤ x * 10 ^ p + 1/2 := h
    _ = (x + 1 / (2 * 10 ^ p)) * 10 ^ p := by field_simp; ring

theorem pyRound_ge (x : ℚ) (p : ℕ) : x - 1 / (2 * 10 ^ p) ≤ pyRound x p := by
  have hp : (0:ℚ) < 10 ^ p := by positivity
  have h := roundHalfToEven_ge (x * 10 ^ p)
  unfold pyRound
  rw [le_div_iff₀ hp]
  calc (x - 1 / (2 * 10 ^ p)) * 10 ^ p = x * 10 ^ p - 1/2 := by field_simp; ring
    _ ≤ (roundHalfToEven (x * 10 ^ p) : ℚ) := h

/-- The gap that survives two-decimal rounding: values at least 1/10 apart
round to strictly ordered results. -/
theorem pyRound_two_strict {a b : ℚ} (h : a + 1/10 ≤ b) : pyRound a 2 < pyRound b 2 := by
  have h1 := pyRound_le a 2
  have h2 := pyRound_ge b 2
  have : (1 : ℚ) / (2 * 10 ^ 2) = 1/200 := by norm_num
  rw [this] at h1 h2
  linarith

theorem roundHalfToEven_intCast (k : ℤ) : roundHalfToEven (k : ℚ) = k := by
  have h1 := rat_floor_le (k : ℚ)
  have h2 := rat_lt_floor_add_one (k : ℚ)
  have hf : (k : ℚ).floor = k := by
    have ha : ((k : ℚ).floor : ℚ) ≤ (k : ℚ) := h1
    have hb : (k : ℚ) < ((k : ℚ).floor : ℚ) + 1 := h2
    have ha2 : (k : ℚ).floor ≤ k := by exact_mod_cast ha
    have hb2 : (k : ℤ) < (k : ℚ).floor + 1 := by exact_mod_cast hb
    omega
  unfold roundHalfToEven
  rw [hf]
  norm_num

/-- `pyRound x p` is the identity on rationals already expressible with `p`
decimal digits. -/
theorem pyRound_eq_of_mul_eq_int {x : ℚ} {p : ℕ} {k : ℤ} (h : x * 10 ^ p = (k : ℚ)) :
    pyRound x p = x := by
  have hp : (0:ℚ) < 10 ^ p := by positivity
  unfold pyRound
  rw [h, roundHalfToEven_intCast, ← h]
  field_simp

/-- `safe_float` from src/app/main.py (the spec's `safe_numeric`): None for a
missing or NaN value, otherwise the coerced value, rounded when a precision is
given. -/
def safe_float (value : PyVal) (precision : Option ℕ) : Option ℚ :=
  match value with
  | .vNone => none
  | .vNaN => none
  | .vInt n =>
    some (match precision with
          | some p => pyRound (n : ℚ) p
          | none => (n : ℚ))
  | .vFloat q =>
    some (match precision with
          | some p => pyRound q p
          | none => q)

/-- pydantic validation of an `Optional[int]` field: None passes through, ints
pass, integral floats are coerced, NaN and fractional floats are rejected. -/
def validateOptInt : PyVal → Except PyErr (Option ℤ)
  | .vNone => .ok none
  | .vNaN => .error .validationError
  | .vInt n => .ok (some n)
  | .vFloat q => if q.den = 1 then .ok (some q.num) else .error .validationError

/-- One upstream tabular row.  String-typed columns are dedicated fields, the
numeric stat columns are a name-to-scalar mapping. -/
structure Row where
  seasonId : String
  teamAbbr : Option String
  playerAge : PyVal
  stats : List (String × PyVal)
deriving DecidableEq

/-- `row.get(key)`: the stored scalar, or None for a missing column. -/
def Row.get (r : Row) (k : String) : PyVal :=
  match r.stats.lookup k with
  | some v => v
  | none => PyVal.vNone

/-- `BasicStatsModel` of src/app/main.py.  `gp`/`gs` are `Optional[int]`, the
rest `Optional[float]`. -/
structure BasicStatsModel where
  gp : Option ℤ
  gs : Option ℤ
  min_per_game : Option ℚ
  pts_per_game : Option ℚ
  fgm_per_game : Option ℚ
  fga_per_game : Option ℚ
  fg_pct : Option ℚ
  fg3m_per_game : Option ℚ
  fg3a_per_game : Option ℚ
  fg3_pct : Option ℚ
  ftm_per_game : Option ℚ
  fta_per_game : Option ℚ
  ft_pct : Option ℚ
  oreb_per_game : Option ℚ
  dreb_per_game : Option ℚ
  reb_per_game : Option ℚ
  ast_per_game : Option ℚ
  tov_per_game : Option ℚ
  stl_per_game : Option ℚ
  blk_per_game : Option ℚ
  pf_per_game : Option ℚ
deriving DecidableEq

/-- `AdvancedStatsModel` of src/app/main.py; all fields `Optional[float]`. -/
structure AdvancedStatsModel where
  off_rating : Option ℚ
  def_rating : Option ℚ
  net_rating : Option ℚ
  ast_pct : Option ℚ
  ast_to_val : Option ℚ
  ast_ratio : Option ℚ
  oreb_pct : Option ℚ
  dreb_pct : Option ℚ
  reb_pct : Option ℚ
  tm_tov_pct : Option ℚ
  efg_pct : Option ℚ
  ts_pct : Option ℚ
  usg_pct : Option ℚ
  pace : Option ℚ
  pie : Option ℚ
  ws : Option ℚ
deriving DecidableEq

/-- `_parse_api_row_to_basic_stats`: every float field goes through
`safe_float` with its fixed precision; `gp` and `gs` are taken from the row
unmodified and validated by pydantic as optional ints (which can raise). -/
def _parse_api_row_to_basic_stats (row : Row) : Except PyErr BasicStatsModel := do
  let gp ← validateOptInt (row.get "GP")
  let gs ← validateOptInt (row.get "GS")
  Except.ok
    { gp := gp
      gs := gs
      min_per_game := safe_float (row.get "MIN") (some 1)
      pts_per_game := safe_float (row.get "PTS") (some 1)
      fgm_per_game := safe_float (row.get "FGM") (some 1)
      fga_per_game := safe_float (row.get "FGA") (some 1)
      fg_pct := safe_float (row.get "FG_PCT") (some 3)
      fg3m_per_game := safe_float (row.get "FG3M") (some 1)
      fg3a_per_game := safe_float (row.get "FG3A") (some 1)
      fg3_pct := safe_float (row.get "FG3_PCT") (some 3)
      ftm_per_game := safe_float (row.get "FTM") (some 1)
      fta_per_game := safe_float (row.get "FTA") (some 1)
      ft_pct := safe_float (row.get "FT_PCT") (some 3)
      oreb_per_game := safe_float (row.get "OREB") (some 1)
      dreb_per_game := safe_float (row.get "DREB") (some 1)
      reb_per_game := safe_float (row.get "REB") (some 1)
      ast_per_game := safe_float (row.get "AST") (some 1)
      tov_per_game := safe_float (row.get "TOV") (some 1)
      stl_per_game := safe_float (row.get "STL") (some 1)
      blk_per_game := safe_float (row.get "BLK") (some 1)
      pf_per_game := safe_float (row.get "PF") (some 1) }

/-- `_parse_api_row_to_advanced_stats`: every field goes through `safe_float`;
this parser cannot raise. -/
def _parse_api_row_to_advanced_stats (row : Row) : AdvancedStatsModel :=
  { off_rating := safe_float (row.get "OFF_RATING") (some 1)
    def_rating := safe_float (row.get "DEF_RATING") (some 1)
    net_rating := safe_float (row.get "NET_RATING") (some 1)
    ast_pct := safe_float (row.get "AST_PCT") (some 3)
    ast_to_val := safe_float (row.get "AST_TO") (some 1)
    ast_ratio := safe_float (row.get "AST_RATIO") (some 1)
    oreb_pct := safe_float (row.get "OREB_PCT") (some 3)
    dreb_pct := safe_float (row.get "DREB_PCT") (some 3)
    reb_pct := safe_float (row.get "REB_PCT") (some 3)
    tm_tov_pct := safe_float (row.get "TM_TOV_PCT") (some 3)
    efg_pct := safe_float (row.get "EFG_PCT") (some 3)
    ts_pct := safe_float (row.get "TS_PCT") (some 3)
    usg_pct := safe_float (row.get "USG_PCT") (some 3)
    pace := safe_float (row.get "PACE") (some 1)
    pie := safe_float (row.get "PIE") (some 3)
    ws := safe_float (row.get "WS") (some 1) }

/-- `SeasonStats` of src/app/main.py. -/
structure SeasonStats where
  season_id : String
  team_abbreviation : String
  player_age : Option ℤ
  basic_stats : Option BasicStatsModel
  advanced_stats : Option AdvancedStatsModel
deriving DecidableEq

/-- `CareerStats` of src/app/main.py. -/
structure CareerStats where
  basic_stats : Option BasicStatsModel
  advanced_stats : Option AdvancedStatsModel
deriving DecidableEq

/-- Truth-testing a pandas row (a Series with more than one column) raises
`ValueError: The truth value of a Series is ambiguous`. -/
def rowTruth (_ : Row) : Except PyErr Bool := .error .seriesTruthAmbiguous

/-- Lexicographic comparison of strings by code point, as Python compares and
sorts strings. -/
def charListLe : List Char → List Char → Bool
  | [], _ => true
  | _ :: _, [] => false
  | c :: cs, d :: ds =>
    if c.val < d.val then true
    else if d.val < c.val then false
    else charListLe cs ds

def strLeb (a b : String) : Bool := charListLe a.data b.data

/-- Python dict insertion: overwrite the value of an existing key in place,
otherwise append the new binding. -/
def dictInsert {α : Type} (m : List (String × α)) (k : String) (v : α) : List (String × α) :=
  if (m.lookup k).isSome then
    m.map (fun p => if p.1 = k then (k, v) else p)
  else m ++ [(k, v)]

/-- The basic-mode per-season dict comprehension of
`get_player_data_from_nba_api`: `SEASON_ID` maps to the parsed basic record
together with the raw row kept as `meta`.  Parsing can raise. -/
def buildBasicSeasonDict (rows : List Row) :
    Except PyErr (List (String × BasicStatsModel × Row)) :=
  rows.foldlM (fun m r => do
    let b ← _parse_api_row_to_basic_stats r
    Except.ok (dictInsert m r.seasonId (b, r))) []

/-- The advanced-mode per-season dict comprehension; this side cannot raise. -/
def buildAdvSeasonDict (rows : List Row) : List (String × AdvancedStatsModel × Row) :=
  rows.foldl (fun m r => dictInsert m r.seasonId (_parse_api_row_to_advanced_stats r, r)) []

/-- `sorted(list(set(basic keys) | set(advanced keys)))`. -/
def sortedUnionKeys {α β : Type} (bdict : List (String × α)) (adict : List (String × β)) :
    List String :=
  ((bdict.map Prod.fst ++ adict.map Prod.fst).dedup).insertionSort
    (fun a b => strLeb a b = true)

/-- The per-season merge loop of `get_player_data_from_nba_api`
(src/app/main.py lines 201-206).  For each season identifier it binds
`basic_s`/`meta_s` from the basic dict and `adv_s`/`meta_s_adv` from the
advanced dict when present, then evaluates `if not meta_s and meta_s_adv:`.
Both truth tests are on pandas rows, so the line raises whenever it is
reached: `not meta_s` raises when the id is in the basic dict, and otherwise
the id is in the advanced dict and `meta_s_adv` (a row) is truth-tested.
When neither dict holds the id, `meta_s_adv` is unbound or stale from an
earlier iteration (`PyErr.nameOrStaleMeta`); the union makes that
unreachable. -/
def mergeLoop (bdict : List (String × BasicStatsModel × Row))
    (adict : List (String × AdvancedStatsModel × Row)) :
    List String → Except PyErr (List SeasonStats)
  | [] => .ok []
  | sid :: rest => do
    let basicEntry := bdict.lookup sid
    let advEntry := adict.lookup sid
    let metaS : Option Row := basicEntry.map (fun e => e.2)
    let metaAdv : Option Row := advEntry.map (fun e => e.2)
    let notMeta ← (match metaS with
      | none => Except.ok true
      | some r => do
        let b ← rowTruth r
        Except.ok (!b))
    let cond ← (if notMeta then
        (match metaAdv with
         | some r => rowTruth r
         | none => Except.error PyErr.nameOrStaleMeta)
      else Except.ok false)
    let metaFinal := if cond then metaAdv else metaS
    match metaFinal with
    | none => mergeLoop bdict adict rest
    | some meta => do
      let age ← validateOptInt meta.playerAge
      let recd : SeasonStats :=
        { season_id := sid
          team_abbreviation := meta.teamAbbr.getD "N/A"
          player_age := age
          basic_stats := basicEntry.map (fun e => e.1)
          advanced_stats := advEntry.map (fun e => e.1) }
      let restOut ← mergeLoop bdict adict rest
      Except.ok (recd :: restOut)

/-- Season reconciliation for one season type: build both dicts from the
fetched tables, take the sorted union of season ids and run the merge loop. -/
def reconcileSeasonTables (basicRows advRows : List Row) : Except PyErr (List SeasonStats) := do
  let bdict ← buildBasicSeasonDict basicRows
  let adict := buildAdvSeasonDict advRows
  mergeLoop bdict adict (sortedUnionKeys bdict adict)

/-- The two tables returned by one `PlayerProfileV2` fetch: the per-season
dataframe rows and the career-totals dataframe rows. -/
structure FetchPayload where
  seasonRows : List Row
  careerRows : List Row
deriving DecidableEq

/-- `fetch_profile_data` (src/app/main.py lines 170-180): an upstream
exception is caught and the combination degrades to no data (None). -/
def fetch_profile_data : Except Unit FetchPayload → Option FetchPayload
  | .ok p => some p
  | .error _ => none

/-- The regular-season slice of `get_player_data_from_nba_api`'s result. -/
structure RegularSeasonResult where
  historical_regular_seasons : Option (List SeasonStats)
  career_regular_season : Option CareerStats
deriving DecidableEq

/-- The regular-season pipeline of `get_player_data_from_nba_api`
(src/app/main.py lines 182-206 and 234-236): absorb per-fetch failures, parse
career rows, build the two season dicts, merge, and apply the
`list or None` / career-truthiness conventions of the returned dict. -/
def buildRegularSeasonPart (fetchBasic fetchAdvanced : Bool)
    (upstreamBasic upstreamAdvanced : Except Unit FetchPayload) :
    Except PyErr RegularSeasonResult := do
  let basicSide ←
    (if fetchBasic then
      match fetch_profile_data upstreamBasic with
      | some p => do
        let careerB ← (match p.careerRows with
          | [] => Except.ok none
          | r0 :: _ => do
            let b ← _parse_api_row_to_basic_stats r0
            Except.ok (some b))
        let bdict ← buildBasicSeasonDict p.seasonRows
        Except.ok (careerB, bdict)
      | none => Except.ok (none, [])
    else Except.ok (none, []))
  let advSide :=
    (if fetchAdvanced then
      match fetch_profile_data upstreamAdvanced with
      | some p =>
        (match p.careerRows with
         | [] => (none, buildAdvSeasonDict p.seasonRows)
         | r0 :: _ => (some (_parse_api_row_to_advanced_stats r0), buildAdvSeasonDict p.seasonRows))
      | none => (none, [])
    else (none, []))
  let seasons ← mergeLoop basicSide.2 advSide.2 (sortedUnionKeys basicSide.2 advSide.2)
  let career : CareerStats := { basic_stats := basicSide.1, advanced_stats := advSide.1 }
  Except.ok
    { historical_regular_seasons := if seasons.isEmpty then none else some seasons
      career_regular_season :=
        if career.basic_stats.isSome || career.advanced_stats.isSome then some career else none }

/-- Row 0 of `MOCK_DF_REG_SEASON_PG` in src/tests/test_player_profile.py
(season 2022-23; columns not consumed anywhere are elided). -/
def mockBasicRow2223 : Row :=
  { seasonId := "2022-23"
    teamAbbr := some "LAL"
    playerAge := .vFloat 38
    stats := [("PLAYER_ID", .vInt 2544), ("TEAM_ID", .vInt 1610612747),
      ("GP", .vInt 55), ("GS", .vInt 54), ("MIN", .vFloat 35.5),
      ("FGM", .vFloat 11.1), ("FGA", .vFloat 22.2), ("FG_PCT", .vFloat 0.5),
      ("FG3M", .vFloat 2.2), ("FG3A", .vFloat 6.9), ("FG3_PCT", .vFloat 0.321),
      ("FTM", .vFloat 4.6), ("FTA", .vFloat 6), ("FT_PCT", .vFloat 0.768),
      ("OREB", .vFloat 1.1), ("DREB", .vFloat 7.2), ("REB", .vFloat 8.3),
      ("AST", .vFloat 6.8), ("STL", .vFloat 0.9), ("BLK", .vFloat 0.6),
      ("TOV", .vFloat 3.2), ("PF", .vFloat 1.9), ("PTS", .vFloat 28.9)] }

/-- Row 1 of `MOCK_DF_REG_SEASON_PG` (season 2021-22). -/
def mockBasicRow2122 : Row :=
  { seasonId := "2021-22"
    teamAbbr := some "LAL"
    playerAge := .vFloat 37
    stats := [("PLAYER_ID", .vInt 2544), ("TEAM_ID", .vInt 1610612747),
      ("GP", .vInt 56), ("GS", .vInt 56), ("MIN", .vFloat 37.2),
      ("FGM", .vFloat 11.3), ("FGA", .vFloat 21.8), ("FG_PCT", .vFloat 0.52),
      ("FG3M", .vFloat 2.9), ("FG3A", .vFloat 8), ("FG3_PCT", .vFloat 0.359),
      ("FTM", .vFloat 4.8), ("FTA", .vFloat 6.5), ("FT_PCT", .vFloat 0.756),
      ("OREB", .vFloat 1.1), ("DREB", .vFloat 6.5), ("REB", .vFloat 7.6),
      ("AST", .vFloat 6.2), ("STL", .vFloat 1.3), ("BLK", .vFloat 1.1),
      ("TOV", .vFloat 3.5), ("PF", .vFloat 2.2), ("PTS", .vFloat 30.3)] }

/-- Row 0 of `MOCK_DF_REG_SEASON_ADV` (season 2022-23). -/
def mockAdvRow2223 : Row :=
  { seasonId := "2022-23"
    teamAbbr := some "LAL"
    playerAge := .vFloat 38
    stats := [("PLAYER_ID", .vInt 2544), ("TEAM_ID", .vInt 1610612747),
      ("GP", .vInt 55), ("GS", .vInt 54), ("MIN", .vFloat 35.5),
      ("OFF_RATING", .vFloat 115.7), ("DEF_RATING", .vFloat 112.8),
      ("NET_RATING", .vFloat 2.9), ("AST_PCT", .vFloat 0.32),
      ("AST_TO", .vFloat 2.13), ("AST_RATIO", .vFloat 19.4),
      ("OREB_PCT", .vFloat 0.035), ("DREB_PCT", .vFloat 0.22),
      ("REB_PCT", .vFloat 0.128), ("TM_TOV_PCT", .vFloat 12),
      ("EFG_PCT", .vFloat 0.55), ("TS_PCT", .vFloat 0.583),
      ("USG_PCT", .vFloat 0.32), ("PACE", .vFloat 102.31),
      ("PIE", .vFloat 0.18), ("WS", .vFloat 5.6)] }

/-- Row 1 of `MOCK_DF_REG_SEASON_ADV` (season 2021-22). -/
def mockAdvRow2122 : Row :=
  { seasonId := "2021-22"
    teamAbbr := some "LAL"
    playerAge := .vFloat 37
    stats := [("PLAYER_ID", .vInt 2544), ("TEAM_ID", .vInt 1610612747),
      ("GP", .vInt 56), ("GS", .vInt 56), ("MIN", .vFloat 37.2),
      ("OFF_RATING", .vFloat 114.7), ("DEF_RATING", .vFloat 111.8),
      ("NET_RATING", .vFloat 2.8), ("AST_PCT", .vFloat 0.3),
      ("AST_TO", .vFloat 1.77), ("AST_RATIO", .vFloat 18),
      ("OREB_PCT", .vFloat 0.036), ("DREB_PCT", .vFloat 0.21),
      ("REB_PCT", .vFloat 0.123), ("TM_TOV_PCT", .vFloat 13),
      ("EFG_PCT", .vFloat 0.58), ("TS_PCT", .vFloat 0.619),
      ("USG_PCT", .vFloat 0.315), ("PACE", .vFloat 101.5),
      ("PIE", .vFloat 0.19), ("WS", .vFloat 6)] }

/-- The single row of `MOCK_DF_REG_CAREER_PG`; the career dataframe has no
SEASON_ID or PLAYER_AGE column. -/
def mockBasicCareerRow : Row :=
  { seasonId := ""
    teamAbbr := none
    playerAge := .vNone
    stats := [("PLAYER_ID", .vInt 2544), ("GP", .vInt 1421), ("GS", .vInt 1420),
      ("MIN", .vFloat 38.1), ("FGM", .vFloat 10), ("FGA", .vFloat 19.8),
      ("FG_PCT", .vFloat 0.505), ("FG3M", .vFloat 1.6), ("FG3A", .vFloat 4.5),
      ("FG3_PCT", .vFloat 0.345), ("FTM", .vFloat 5.5), ("FTA", .vFloat 7.5),
      ("FT_PCT", .vFloat 0.735), ("OREB", .vFloat 1.2), ("DREB", .vFloat 6.3),
      ("REB", .vFloat 7.5), ("AST", .vFloat 7.3), ("STL", .vFloat 1.5),
      ("BLK", .vFloat 0.8), ("TOV", .vFloat 3.5), ("PF", .vFloat 1.9),
      ("PTS", .vFloat 27.2)] }

/-- The basic-mode regular-season fetch payload built from the repository's
own mock dataframes. -/
def mockRegularBasicPayload : FetchPayload :=
  { seasonRows := [mockBasicRow2223, mockBasicRow2122]
    careerRows := [mockBasicCareerRow] }

/-- Claim C1: the reconciled season list is claimed to hold exactly one record
per season id in the union of the two tables, sorted ascending.  On the
repository's own mock tables (two seasons present in both tables) the merge
loop instead raises: `if not meta_s and meta_s_adv:` truth-tests a pandas row,
which raises `ValueError`, so no reconciled list is produced at all.  The
loop is only ever completed when the union of season ids is empty. -/
theorem claim_c1_merge_raises :
    reconcileSeasonTables [mockBasicRow2223, mockBasicRow2122]
        [mockAdvRow2223, mockAdvRow2122] = .error .seriesTruthAmbiguous
    ∧ reconcileSeasonTables [mockBasicRow2223, mockBasicRow2122] [] =
        .error .seriesTruthAmbiguous
    ∧ reconcileSeasonTables [] [mockAdvRow2223, mockAdvRow2122] =
        .error .seriesTruthAmbiguous
    ∧ reconcileSeasonTables [] [] = .ok [] := by
  refine ⟨?_, ?_, ?_, ?_⟩ <;> decide

/-- Claim C3: a failed upstream fetch is indeed absorbed by
`fetch_profile_data`, but the profile build then only survives when nothing
else was fetched: with the advanced fetch failing and the basic fetch
returning the repository's mock table, the merge loop raises and the
exception reaches the caller, so no reconciliation result is produced. -/
theorem claim_c3_absorbed_fetch_still_raises :
    buildRegularSeasonPart true true (.ok mockRegularBasicPayload) (.error ()) =
        .error .seriesTruthAmbiguous
    ∧ buildRegularSeasonPart true true (.error ()) (.error ()) =
        .ok { historical_regular_seasons := none, career_regular_season := none } := by
  constructor <;> decide

/-- `PlayerStatsSummary` of src/app/main.py.  `usage_rate` is declared
`Optional[Union[str, float]]` in the source but only ever holds the advanced
`usg_pct` float, so it is carried as an optional rational; the `Union` typing
matters only for the lineup aggregator's schema reflection, which is embedded
separately. -/
structure PlayerStatsSummary where
  points_per_game : Option ℚ
  true_shooting_pct : Option ℚ
  rebounds_per_game : Option ℚ
  assists_per_game : Option ℚ
  steals_per_game : Option ℚ
  blocks_per_game : Option ℚ
  turnovers_per_game : Option ℚ
  fg_pct : Option ℚ
  fg3_pct : Option ℚ
  ft_pct : Option ℚ
  minutes_per_game : Option ℚ
  usage_rate : Option ℚ
  team : Option String
deriving DecidableEq

/-- The latest-season summary projection of `get_player_profile`
(src/app/main.py lines 313-317), also replicated verbatim in `/compare` and
`/lineup`: a summary exists iff the regular-season list is non-empty (the
bundle stores `list or None`) and its last record has basic stats;
`true_shooting_pct`/`usage_rate` come from the advanced side when present and
stay empty otherwise. -/
def projectLatestSummary (seasons : Option (List SeasonStats)) : Option PlayerStatsSummary :=
  match seasons with
  | none => none
  | some l =>
    match l.getLast? with
    | none => none
    | some latest =>
      match latest.basic_stats with
      | none => none
      | some b =>
        let tsUsg : Option ℚ × Option ℚ :=
          match latest.advanced_stats with
          | some a => (a.ts_pct, a.usg_pct)
          | none => (none, none)
        some
          { points_per_game := b.pts_per_game
            true_shooting_pct := tsUsg.1
            rebounds_per_game := b.reb_per_game
            assists_per_game := b.ast_per_game
            steals_per_game := b.stl_per_game
            blocks_per_game := b.blk_per_game
            turnovers_per_game := b.tov_per_game
            fg_pct := b.fg_pct
            fg3_pct := b.fg3_pct
            ft_pct := b.ft_pct
            minutes_per_game := b.min_per_game
            usage_rate := tsUsg.2
            team := some latest.team_abbreviation }

/-- Claim C4: the latest-season summary is present iff the reconciled
regular-season list is non-empty and its last record has basic stats; when
present, `true_shooting_pct`/`usage_rate` are the advanced side's values when
advanced stats exist and empty otherwise — a basic-only latest season yields
a summary, never an error. -/
theorem claim_c4_latest_summary (seasons : Option (List SeasonStats)) :
    ((projectLatestSummary seasons).isSome = true ↔
      ∃ l latest, seasons = some l ∧ l.getLast? = some latest ∧
        latest.basic_stats.isSome = true)
    ∧ (∀ l latest b, seasons = some l → l.getLast? = some latest →
        latest.basic_stats = some b →
        (latest.advanced_stats = none →
          projectLatestSummary seasons = some
            { points_per_game := b.pts_per_game
              true_shooting_pct := none
              rebounds_per_game := b.reb_per_game
              assists_per_game := b.ast_per_game
              steals_per_game := b.stl_per_game
              blocks_per_game := b.blk_per_game
              turnovers_per_game := b.tov_per_game
              fg_pct := b.fg_pct
              fg3_pct := b.fg3_pct
              ft_pct := b.ft_pct
              minutes_per_game := b.min_per_game
              usage_rate := none
              team := some latest.team_abbreviation })
        ∧ (∀ a, latest.advanced_stats = some a →
          projectLatestSummary seasons = some
            { points_per_game := b.pts_per_game
              true_shooting_pct := a.ts_pct
              rebounds_per_game := b.reb_per_game
              assists_per_game := b.ast_per_game
              steals_per_game := b.stl_per_game
              blocks_per_game := b.blk_per_game
              turnovers_per_game := b.tov_per_game
              fg_pct := b.fg_pct
              fg3_pct := b.fg3_pct
              ft_pct := b.ft_pct
              minutes_per_game := b.min_per_game
              usage_rate := a.usg_pct
              team := some latest.team_abbreviation })) := by
  constructor
  · constructor
    · intro h
      cases seasons with
      | none => simp [projectLatestSummary] at h
      | some l =>
        cases hl : l.getLast? with
        | none => simp [projectLatestSummary, hl] at h
        | some latest =>
          cases hb : latest.basic_stats with
          | none => simp [projectLatestSummary, hl, hb] at h
          | some b => exact ⟨l, latest, rfl, hl, by rw [hb]; rfl⟩
    · rintro ⟨l, latest, rfl, hl, hb⟩
      cases hb2 : latest.basic_stats with
      | none => rw [hb2] at hb; simp at hb
      | some b => simp [projectLatestSummary, hl, hb2]
  · rintro l latest b rfl hl hb
    constructor
    · intro hadv
      simp [projectLatestSummary, hl, hb, hadv]
    · intro a hadv
      simp [projectLatestSummary, hl, hb, hadv]

/-- A concrete basic-only season record used as witnesses. -/
def basicOnlyStats : BasicStatsModel :=
  { gp := some 55, gs := some 54, min_per_game := some 35.5,
    pts_per_game := some 28.9, fgm_per_game := none, fga_per_game := none,
    fg_pct := none, fg3m_per_game := none, fg3a_per_game := none, fg3_pct := none,
    ftm_per_game := none, fta_per_game := none, ft_pct := none, oreb_per_game := none,
    dreb_per_game := none, reb_per_game := some 8.3, ast_per_game := none,
    tov_per_game := none, stl_per_game := none, blk_per_game := none,
    pf_per_game := none }

def basicOnlySeason : SeasonStats :=
  { season_id := "2022-23", team_abbreviation := "LAL", player_age := some 38,
    basic_stats := some basicOnlyStats, advanced_stats := none }

/-- Witness for claim C4 at a concrete basic-only season record. -/
theorem claim_c4_latest_summary_witness :
    projectLatestSummary (some [basicOnlySeason]) = some
      { points_per_game := some 28.9, true_shooting_pct := none,
        rebounds_per_game := some 8.3, assists_per_game := none,
        steals_per_game := none, blocks_per_game := none,
        turnovers_per_game := none, fg_pct := none, fg3_pct := none,
        ft_pct := none, minutes_per_game := some 35.5, usage_rate := none,
        team := some "LAL" } := by
  exact ((claim_c4_latest_summary _).2 [basicOnlySeason] basicOnlySeason
    basicOnlyStats rfl rfl rfl).1 rfl

/-- Python `str.upper()` (the category codes here are ASCII). -/
def upperStr (s : String) : String := ⟨s.data.map Char.toUpper⟩

/-- Replace every non-overlapping occurrence of `pat` (left to right) by
`rep`; the fuel argument is the remaining input length, which bounds the
number of steps. -/
def replaceAux (pat rep : List Char) : ℕ → List Char → List Char
  | _, [] => []
  | 0, l => l
  | n + 1, c :: rest =>
    if pat.isPrefixOf (c :: rest) then
      rep ++ replaceAux pat rep n (List.drop (pat.length - 1) rest)
    else
      c :: replaceAux pat rep n rest

/-- Python `s.replace(pat, rep)`. -/
def replaceStr (s pat rep : String) : String :=
  if pat.data.isEmpty then s else ⟨replaceAux pat.data rep.data s.data.length s.data⟩

def listHasSub (pat : List Char) : List Char → Bool
  | [] => pat.isEmpty
  | c :: rest => pat.isPrefixOf (c :: rest) || listHasSub pat rest

/-- Python substring membership `pat in s`. -/
def strContainsSub (s pat : String) : Bool := listHasSub pat.data s.data

/-- Category-code normalization of `calculate_heuristic_score_for_player`
(src/app/main.py lines 270-273): uppercase, strip `_PER_GAME`, apply the
no-op `.replace("3", "3")`, keep `FG3_PCT` as itself, then canonicalize any
code containing `FG_PCT` or `FT_PCT`. -/
def normalizeCat (catReq : String) : String :=
  let c := replaceStr (replaceStr (upperStr catReq) "_PER_GAME" "") "3" "3"
  if c = "FG3_PCT" then c
  else if strContainsSub c "FG_PCT" then "FG_PCT"
  else if strContainsSub c "FT_PCT" then "FT_PCT"
  else c

/-- Which stats record a scoring category reads (`CATEGORY_MAP`'s
`"BasicStatsModel"`/`"AdvancedStatsModel"` tag). -/
inductive StatSource where
  | basic : StatSource
  | advanced : StatSource
deriving DecidableEq

/-- `CATEGORY_MAP` of src/app/main.py (lines 243-254) as a lookup:
category code to (model field name, source record, higher-is-better flag).
There is no `FG3_PCT` key. -/
def categoryLookup (c : String) : Option (String × StatSource × Bool) :=
  if c = "PTS" then some ("pts_per_game", .basic, true)
  else if c = "REB" then some ("reb_per_game", .basic, true)
  else if c = "AST" then some ("ast_per_game", .basic, true)
  else if c = "STL" then some ("stl_per_game", .basic, true)
  else if c = "BLK" then some ("blk_per_game", .basic, true)
  else if c = "FG3M" then some ("fg3m_per_game", .basic, true)
  else if c = "TOV" then some ("tov_per_game", .basic, false)
  else if c = "FG_PCT" then some ("fg_pct", .basic, true)
  else if c = "FT_PCT" then some ("ft_pct", .basic, true)
  else if c = "GP" then some ("gp", .basic, true)
  else if c = "MIN" then some ("min_per_game", .basic, true)
  else if c = "TS_PCT" then some ("ts_pct", .advanced, true)
  else if c = "USG_PCT" then some ("usg_pct", .advanced, true)
  else if c = "WS" then some ("ws", .advanced, true)
  else if c = "PIE" then some ("pie", .advanced, true)
  else if c = "OFF_RATING" then some ("off_rating", .advanced, true)
  else if c = "DEF_RATING" then some ("def_rating", .advanced, true)
  else if c = "NET_RATING" then some ("net_rating", .advanced, true)
  else if c = "AST_PCT" then some ("ast_pct", .advanced, true)
  else if c = "REB_PCT" then some ("reb_pct", .advanced, true)
  else none

/-- The key set of `CATEGORY_MAP`. -/
def categoryKeys : List String :=
  ["PTS", "REB", "AST", "STL", "BLK", "FG3M", "TOV", "FG_PCT", "FT_PCT", "GP",
   "MIN", "TS_PCT", "USG_PCT", "WS", "PIE", "OFF_RATING", "DEF_RATING",
   "NET_RATING", "AST_PCT", "REB_PCT"]

/-- `getattr(basic_stats, field)` for the basic record, as an optional float
(`gp`/`gs` are ints and coerce); an unknown field name means `hasattr` is
false, which the scoring loop treats the same as a None value. -/
def getattrBasicStat (field : String) (b : BasicStatsModel) : Option ℚ :=
  if field = "gp" then b.gp.map (fun n => (n : ℚ))
  else if field = "gs" then b.gs.map (fun n => (n : ℚ))
  else if field = "min_per_game" then b.min_per_game
  else if field = "pts_per_game" then b.pts_per_game
  else if field = "fgm_per_game" then b.fgm_per_game
  else if field = "fga_per_game" then b.fga_per_game
  else if field = "fg_pct" then b.fg_pct
  else if field = "fg3m_per_game" then b.fg3m_per_game
  else if field = "fg3a_per_game" then b.fg3a_per_game
  else if field = "fg3_pct" then b.fg3_pct
  else if field = "ftm_per_game" then b.ftm_per_game
  else if field = "fta_per_game" then b.fta_per_game
  else if field = "ft_pct" then b.ft_pct
  else if field = "oreb_per_game" then b.oreb_per_game
  else if field = "dreb_per_game" then b.dreb_per_game
  else if field = "reb_per_game" then b.reb_per_game
  else if field = "ast_per_game" then b.ast_per_game
  else if field = "tov_per_game" then b.tov_per_game
  else if field = "stl_per_game" then b.stl_per_game
  else if field = "blk_per_game" then b.blk_per_game
  else if field = "pf_per_game" then b.pf_per_game
  else none

/-- `getattr(advanced_stats, field)` for the advanced record. -/
def getattrAdvancedStat (field : String) (a : AdvancedStatsModel) : Option ℚ :=
  if field = "off_rating" then a.off_rating
  else if field = "def_rating" then a.def_rating
  else if field = "net_rating" then a.net_rating
  else if field = "ast_pct" then a.ast_pct
  else if field = "ast_to_val" then a.ast_to_val
  else if field = "ast_ratio" then a.ast_ratio
  else if field = "oreb_pct" then a.oreb_pct
  else if field = "dreb_pct" then a.dreb_pct
  else if field = "reb_pct" then a.reb_pct
  else if field = "tm_tov_pct" then a.tm_tov_pct
  else if field = "efg_pct" then a.efg_pct
  else if field = "ts_pct" then a.ts_pct
  else if field = "usg_pct" then a.usg_pct
  else if field = "pace" then a.pace
  else if field = "pie" then a.pie
  else if field = "ws" then a.ws
  else none

/-- The stat value a category reads for a candidate: the mapped field of the
mapped record, None when the advanced record is absent, the field unset, or
the field name unknown. -/
def categoryStatValue (b : BasicStatsModel) (adv : Option AdvancedStatsModel)
    (field : String) (src : StatSource) : Option ℚ :=
  match src with
  | .basic => getattrBasicStat field b
  | .advanced =>
    match adv with
    | some a => getattrAdvancedStat field a
    | none => none

/-- Python truthiness of an `Optional[float]`: None and 0.0 are falsy. -/
def truthyOptQ : Option ℚ → Bool
  | none => false
  | some q => !(q == 0)

/-- The stat value recorded in `targeted_category_stats` for one requested
category code (None when the normalized code is unmapped or the value is
absent). -/
def recordedOne (b : BasicStatsModel) (adv : Option AdvancedStatsModel)
    (catReq : String) : Option ℚ :=
  match categoryLookup (normalizeCat catReq) with
  | none => none
  | some (field, src, _) => categoryStatValue b adv field src

/-- The score contribution of one requested category code
(src/app/main.py lines 284-290): volume-weighted for `FG_PCT`/`FT_PCT`,
negated for `TOV`, the raw value otherwise, then negated once more for a
lower-is-better category other than `TOV`; zero when the code is unmapped or
the value absent. -/
def contribOne (b : BasicStatsModel) (adv : Option AdvancedStatsModel)
    (catReq : String) : ℚ :=
  match categoryLookup (normalizeCat catReq) with
  | none => 0
  | some (field, src, higherIsBetter) =>
    match categoryStatValue b adv field src with
    | none => 0
    | some v =>
      let cat := normalizeCat catReq
      let contribution :=
        if cat = "FG_PCT" ∧ truthyOptQ b.fga_per_game = true ∧ (0:ℚ) < b.fga_per_game.getD 0 then
          v * b.fga_per_game.getD 0 * (1/10)
        else if cat = "FT_PCT" ∧ truthyOptQ b.fta_per_game = true ∧ (0:ℚ) < b.fta_per_game.getD 0 then
          v * b.fta_per_game.getD 0 * (1/10)
        else if cat = "TOV" then -v
        else v
      if higherIsBetter = false ∧ cat ≠ "TOV" then -contribution else contribution

/-- The scoring loop of `calculate_heuristic_score_for_player`
(src/app/main.py lines 269-290): one dict entry per requested code in request
order, and the running score total. -/
def scoreCategories (b : BasicStatsModel) (adv : Option AdvancedStatsModel) :
    List String → List (String × Option ℚ) × ℚ
  | [] => ([], 0)
  | c :: rest =>
    let tail := scoreCategories b adv rest
    ((c, recordedOne b adv c) :: tail.1, contribOne b adv c + tail.2)

/-- The `latest_season_summary_brief` dict (keys GP, MIN, PTS, REB, AST,
Team). -/
structure SummaryBrief where
  gp : Option ℤ
  minutes : Option ℚ
  pts : Option ℚ
  reb : Option ℚ
  ast : Option ℚ
  team : String
deriving DecidableEq

/-- `RecommendedPlayer` of src/app/main.py. -/
structure RecommendedPlayer where
  player_id : ℤ
  full_name : String
  recommendation_score : ℚ
  targeted_category_stats : List (String × Option ℚ)
  latest_season_summary_brief : SummaryBrief
deriving DecidableEq

/-- The dict returned by `get_player_data_from_nba_api` as consumed by the
recommendation and lineup endpoints. -/
structure PlayerDataBundle where
  historical_regular_seasons : Option (List SeasonStats)
  career_regular_season : Option CareerStats
  historical_playoff_seasons : Option (List SeasonStats)
  career_playoffs : Option CareerStats
deriving DecidableEq

/-- `calculate_heuristic_score_for_player` (src/app/main.py lines 258-293):
None without a latest regular season with basic stats, otherwise the scored
candidate.  The `player_id` is the placeholder `gp or 0`, overwritten by the
endpoint. -/
def calculate_heuristic_score_for_player (bundle : PlayerDataBundle)
    (target_categories : List String) (player_full_name : String) :
    Option RecommendedPlayer :=
  match bundle.historical_regular_seasons with
  | none => none
  | some l =>
    match l.getLast? with
    | none => none
    | some latest =>
      match latest.basic_stats with
      | none => none
      | some b =>
        let adv := latest.advanced_stats
        let brief : SummaryBrief :=
          { gp := b.gp, minutes := b.min_per_game, pts := b.pts_per_game,
            reb := b.reb_per_game, ast := b.ast_per_game,
            team := latest.team_abbreviation }
        let scored := scoreCategories b adv target_categories
        some
          { player_id := b.gp.getD 0
            full_name := player_full_name
            recommendation_score := pyRound scored.2 2
            targeted_category_stats := scored.1
            latest_season_summary_brief := brief }

def MIN_GAMES_PLAYED_THRESHOLD : ℤ := 10

def MIN_MINUTES_PER_GAME_THRESHOLD : ℚ := 15

/-- The eligibility test `gp and mpg and gp >= MIN_GAMES_PLAYED_THRESHOLD and
mpg >= MIN_MINUTES_PER_GAME_THRESHOLD` of `get_category_recommendations`
(src/app/main.py line 393): None or zero short-circuits to falsy. -/
def eligibilityPasses : Option ℤ → Option ℚ → Bool
  | some g, some m =>
    !(g == 0) && !(m == 0) &&
      decide (MIN_GAMES_PLAYED_THRESHOLD ≤ g) && decide (MIN_MINUTES_PER_GAME_THRESHOLD ≤ m)
  | _, _ => false

/-- The per-candidate body of `get_category_recommendations`
(src/app/main.py lines 388-397, after the exclusion test): skip without a
latest regular season with basic stats, skip when the playing-time filter
fails, otherwise score. -/
def processCandidate (bundle : Option PlayerDataBundle) (cats : List String)
    (full_name : String) : Option RecommendedPlayer :=
  match bundle with
  | none => none
  | some d =>
    match d.historical_regular_seasons with
    | none => none
    | some l =>
      match l.getLast? with
      | none => none
      | some latest =>
        match latest.basic_stats with
        | none => none
        | some b =>
          if eligibilityPasses b.gp b.min_per_game then
            calculate_heuristic_score_for_player d cats full_name
          else none

/-- `get_category_recommendations` (src/app/main.py lines 380-401) over an
abstract candidate pool of (player id, full name, fetched bundle) triples:
filter, score, overwrite the placeholder id, sort stably by descending score
(Python's stable `list.sort` with `reverse=True`) and take the top N. -/
def get_category_recommendations
    (pool : List (ℤ × String × Option PlayerDataBundle)) (cats : List String)
    (num_recommendations : ℕ) (excluded_player_ids : List ℤ) : List RecommendedPlayer :=
  let candidates := pool.filterMap (fun entry =>
    if entry.1 ∈ excluded_player_ids then none
    else (processCandidate entry.2.2 cats entry.2.1).map
      (fun rp => { rp with player_id := entry.1 }))
  (candidates.insertionSort
    (fun p q => q.recommendation_score ≤ p.recommendation_score)).take num_recommendations

/-- A concrete eligible candidate record used by witnesses (values in the
style of the repository's recommendation test fixtures). -/
def witnessBasic : BasicStatsModel :=
  { gp := some 70, gs := some 70, min_per_game := some 30,
    pts_per_game := some 25, fgm_per_game := some 12.5, fga_per_game := some 18,
    fg_pct := some 0.45, fg3m_per_game := some 2, fg3a_per_game := some 4,
    fg3_pct := some 0.35, ftm_per_game := some 2, fta_per_game := some 5,
    ft_pct := some 0.8, oreb_per_game := some 1.7, dreb_per_game := some 3.3,
    reb_per_game := some 5, ast_per_game := some 5, tov_per_game := some 2,
    stl_per_game := some 1, blk_per_game := some 0.5, pf_per_game := some 2 }

def witnessAdvanced : AdvancedStatsModel :=
  { off_rating := some 110, def_rating := some 105, net_rating := some 5,
    ast_pct := some 0.15, ast_to_val := some 2, ast_ratio := some 15,
    oreb_pct := some 0.1, dreb_pct := some 0.2, reb_pct := some 0.15,
    tm_tov_pct := some 0.12, efg_pct := some 0.5, ts_pct := some 0.58,
    usg_pct := some 0.2, pace := some 100, pie := some 0.15, ws := some 8 }

/-- Claim C5 counterexample: the candidate's 3-point percentage is present
(0.35), yet a requested `FG3_PCT` — which normalizes to itself — is recorded
with a null stat value and contributes nothing, because `CATEGORY_MAP` has no
`FG3_PCT` key.  The claim's enumerated set wrongly includes `FG3_PCT`. -/
theorem claim_c5_fg3_pct_counterexample :
    scoreCategories witnessBasic (some witnessAdvanced) ["FG3_PCT"] =
        ([("FG3_PCT", none)], 0)
    ∧ witnessBasic.fg3_pct = some 0.35 := by
  have hn : normalizeCat "FG3_PCT" = "FG3_PCT" := by decide
  constructor
  · simp [scoreCategories, recordedOne, contribOne, hn, categoryLookup]
  · rfl

/-- Claim C5 (amended): the enumerated category set is exactly
`categoryKeys`, which does not contain `FG3_PCT`; `FG3_PCT` normalizes to
itself and falls outside the set.  The scoring loop records one entry per
requested code in request order — the stat value for mapped codes, null for
unmapped ones — and sums the per-code contributions, unmapped codes
contributing zero; no requested code is an error. -/
theorem claim_c5_category_handling :
    (normalizeCat "FG3_PCT" = "FG3_PCT" ∧ categoryLookup "FG3_PCT" = none
      ∧ "FG3_PCT" ∉ categoryKeys)
    ∧ (∀ c, (categoryLookup c).isSome = true ↔ c ∈ categoryKeys)
    ∧ (∀ b adv cats, scoreCategories b adv cats =
        (cats.map (fun c => (c, recordedOne b adv c)),
         (cats.map (contribOne b adv)).sum))
    ∧ (∀ b adv c, categoryLookup (normalizeCat c) = none →
        recordedOne b adv c = none ∧ contribOne b adv c = 0)
    ∧ (∀ b adv c field src hib, categoryLookup (normalizeCat c) = some (field, src, hib) →
        recordedOne b adv c = categoryStatValue b adv field src) := by
  refine ⟨⟨by decide, by decide, by decide⟩, ?_, ?_, ?_, ?_⟩
  · intro c
    by_cases h1 : c = "PTS"
    · subst h1; decide
    by_cases h2 : c = "REB"
    · subst h2; decide
    by_cases h3 : c = "AST"
    · subst h3; decide
    by_cases h4 : c = "STL"
    · subst h4; decide
    by_cases h5 : c = "BLK"
    · subst h5; decide
    by_cases h6 : c = "FG3M"
    · subst h6; decide
    by_cases h7 : c = "TOV"
    · subst h7; decide
    by_cases h8 : c = "FG_PCT"
    · subst h8; decide
    by_cases h9 : c = "FT_PCT"
    · subst h9; decide
    by_cases h10 : c = "GP"
    · subst h10; decide
    by_cases h11 : c = "MIN"
    · subst h11; decide
    by_cases h12 : c = "TS_PCT"
    · subst h12; decide
    by_cases h13 : c = "USG_PCT"
    · subst h13; decide
    by_cases h14 : c = "WS"
    · subst h14; decide
    by_cases h15 : c = "PIE"
    · subst h15; decide
    by_cases h16 : c = "OFF_RATING"
    · subst h16; decide
    by_cases h17 : c = "DEF_RATING"
    · subst h17; decide
    by_cases h18 : c = "NET_RATING"
    · subst h18; decide
    by_cases h19 : c = "AST_PCT"
    · subst h19; decide
    by_cases h20 : c = "REB_PCT"
    · subst h20; decide
    have hnone : categoryLookup c = none := by
      unfold categoryLookup
      rw [if_neg h1, if_neg h2, if_neg h3, if_neg h4, if_neg h5, if_neg h6, if_neg h7, if_neg h8, if_neg h9, if_neg h10, if_neg h11, if_neg h12, if_neg h13, if_neg h14, if_neg h15, if_neg h16, if_neg h17, if_neg h18, if_neg h19, if_neg h20]
    rw [hnone]
    simp [categoryKeys, h1, h2, h3, h4, h5, h6, h7, h8, h9, h10, h11, h12, h13, h14, h15, h16, h17, h18, h19, h20]
  · intro b adv cats
    induction cats with
    | nil => rfl
    | cons c rest ih => simp [scoreCategories, ih]
  · intro b adv c h
    unfold recordedOne contribOne
    rw [h]
    exact ⟨rfl, rfl⟩
  · intro b adv c field src hib h
    unfold recordedOne
    rw [h]

/-- Only the `TOV` key of `CATEGORY_MAP` reads the `tov_per_game` field. -/
theorem categoryLookup_field_tov {c : String} {v : String × StatSource × Bool}
    (h : categoryLookup c = some v) (hf : v.1 = "tov_per_game") : c = "TOV" := by
  by_cases h1 : c = "PTS"
  · subst h1
    rw [show categoryLookup "PTS" = some ("pts_per_game", StatSource.basic, true) from by decide] at h
    injection h with h0
    subst h0
    exact absurd hf (by decide)
  by_cases h2 : c = "REB"
  · subst h2
    rw [show categoryLookup "REB" = some ("reb_per_game", StatSource.basic, true) from by decide] at h
    injection h with h0
    subst h0
    exact absurd hf (by decide)
  by_cases h3 : c = "AST"
  · subst h3
    rw [show categoryLookup "AST" = some ("ast_per_game", StatSource.basic, true) from by decide] at h
    injection h with h0
    subst h0
    exact absurd hf (by decide)
  by_cases h4 : c = "STL"
  · subst h4
    rw [show categoryLookup "STL" = some ("stl_per_game", StatSource.basic, true) from by decide] at h
    injection h with h0
    subst h0
    exact absurd hf (by decide)
  by_cases h5 : c = "BLK"
  · subst h5
    rw [show categoryLookup "BLK" = some ("blk_per_game", StatSource.basic, true) from by decide] at h
    injection h with h0
    subst h0
    exact absurd hf (by decide)
  by_cases h6 : c = "FG3M"
  · subst h6
    rw [show categoryLookup "FG3M" = some ("fg3m_per_game", StatSource.basic, true) from by decide] at h
    injection h with h0
    subst h0
    exact absurd hf (by decide)
  by_cases h7 : c = "TOV"
  · exact h7
  by_cases h8 : c = "FG_PCT"
  · subst h8
    rw [show categoryLookup "FG_PCT" = some ("fg_pct", StatSource.basic, true) from by decide] at h
    injection h with h0
    subst h0
    exact absurd hf (by decide)
  by_cases h9 : c = "FT_PCT"
  · subst h9
    rw [show categoryLookup "FT_PCT" = some ("ft_pct", StatSource.basic, true) from by decide] at h
    injection h with h0
    subst h0
    exact absurd hf (by decide)
  by_cases h10 : c = "GP"
  · subst h10
    rw [show categoryLookup "GP" = some ("gp", StatSource.basic, true) from by decide] at h
    injection h with h0
    subst h0
    exact absurd hf (by decide)
  by_cases h11 : c = "MIN"
  · subst h11
    rw [show categoryLookup "MIN" = some ("min_per_game", StatSource.basic, true) from by decide] at h
    injection h with h0
    subst h0
    exact absurd hf (by decide)
  by_cases h12 : c = "TS_PCT"
  · subst h12
    rw [show categoryLookup "TS_PCT" = some ("ts_pct", StatSource.advanced, true) from by decide] at h
    injection h with h0
    subst h0
    exact absurd hf (by decide)
  by_cases h13 : c = "USG_PCT"
  · subst h13
    rw [show categoryLookup "USG_PCT" = some ("usg_pct", StatSource.advanced, true) from by decide] at h
    injection h with h0
    subst h0
    exact absurd hf (by decide)
  by_cases h14 : c = "WS"
  · subst h14
    rw [show categoryLookup "WS" = some ("ws", StatSource.advanced, true) from by decide] at h
    injection h with h0
    subst h0
    exact absurd hf (by decide)
  by_cases h15 : c = "PIE"
  · subst h15
    rw [show categoryLookup "PIE" = some ("pie", StatSource.advanced, true) from by decide] at h
    injection h with h0
    subst h0
    exact absurd hf (by decide)
  by_cases h16 : c = "OFF_RATING"
  · subst h16
    rw [show categoryLookup "OFF_RATING" = some ("off_rating", StatSource.advanced, true) from by decide] at h
    injection h with h0
    subst h0
    exact absurd hf (by decide)
  by_cases h17 : c = "DEF_RATING"
  · subst h17
    rw [show categoryLookup "DEF_RATING" = some ("def_rating", StatSource.advanced, true) from by decide] at h
    injection h with h0
    subst h0
    exact absurd hf (by decide)
  by_cases h18 : c = "NET_RATING"
  · subst h18
    rw [show categoryLookup "NET_RATING" = some ("net_rating", StatSource.advanced, true) from by decide] at h
    injection h with h0
    subst h0
    exact absurd hf (by decide)
  by_cases h19 : c = "AST_PCT"
  · subst h19
    rw [show categoryLookup "AST_PCT" = some ("ast_pct", StatSource.advanced, true) from by decide] at h
    injection h with h0
    subst h0
    exact absurd hf (by decide)
  by_cases h20 : c = "REB_PCT"
  · subst h20
    rw [show categoryLookup "REB_PCT" = some ("reb_pct", StatSource.advanced, true) from by decide] at h
    injection h with h0
    subst h0
    exact absurd hf (by decide)
  have hnone : categoryLookup c = none := by
    unfold categoryLookup
    rw [if_neg h1, if_neg h2, if_neg h3, if_neg h4, if_neg h5, if_neg h6, if_neg h7, if_neg h8, if_neg h9, if_neg h10, if_neg h11, if_neg h12, if_neg h13, if_neg h14, if_neg h15, if_neg h16, if_neg h17, if_neg h18, if_neg h19, if_neg h20]
  rw [hnone] at h
  cases h

/-- `getattr` on the basic record is unchanged by updating `tov_per_game`,
for every other field name. -/
theorem getattrBasicStat_update_tov (b : BasicStatsModel) (v : Option ℚ) (f : String)
    (hf : f ≠ "tov_per_game") :
    getattrBasicStat f { b with tov_per_game := v } = getattrBasicStat f b := by
  by_cases h1 : f = "gp"
  · subst h1; rfl
  by_cases h2 : f = "gs"
  · subst h2; rfl
  by_cases h3 : f = "min_per_game"
  · subst h3; rfl
  by_cases h4 : f = "pts_per_game"
  · subst h4; rfl
  by_cases h5 : f = "fgm_per_game"
  · subst h5; rfl
  by_cases h6 : f = "fga_per_game"
  · subst h6; rfl
  by_cases h7 : f = "fg_pct"
  · subst h7; rfl
  by_cases h8 : f = "fg3m_per_game"
  · subst h8; rfl
  by_cases h9 : f = "fg3a_per_game"
  · subst h9; rfl
  by_cases h10 : f = "fg3_pct"
  · subst h10; rfl
  by_cases h11 : f = "ftm_per_game"
  · subst h11; rfl
  by_cases h12 : f = "fta_per_game"
  · subst h12; rfl
  by_cases h13 : f = "ft_pct"
  · subst h13; rfl
  by_cases h14 : f = "oreb_per_game"
  · subst h14; rfl
  by_cases h15 : f = "dreb_per_game"
  · subst h15; rfl
  by_cases h16 : f = "reb_per_game"
  · subst h16; rfl
  by_cases h17 : f = "ast_per_game"
  · subst h17; rfl
  by_cases h18 : f = "tov_per_game"
  · exact absurd h18 hf
  by_cases h19 : f = "stl_per_game"
  · subst h19; rfl
  by_cases h20 : f = "blk_per_game"
  · subst h20; rfl
  by_cases h21 : f = "pf_per_game"
  · subst h21; rfl
  unfold getattrBasicStat
  simp only [if_neg h1, if_neg h2, if_neg h3, if_neg h4, if_neg h5, if_neg h6, if_neg h7, if_neg h8, if_neg h9, if_neg h10, if_neg h11, if_neg h12, if_neg h13, if_neg h14, if_neg h15, if_neg h16, if_neg h17, if_neg h18, if_neg h19, if_neg h20, if_neg h21]

/-- A category whose normalized code is not `TOV` contributes the same for
two candidates that differ only in the turnover field. -/
theorem contribOne_congr (b1 b2 : BasicStatsModel) (adv : Option AdvancedStatsModel)
    (c : String) (hne : normalizeCat c ≠ "TOV")
    (hb : ∀ f, f ≠ "tov_per_game" → getattrBasicStat f b1 = getattrBasicStat f b2)
    (hfga : b1.fga_per_game = b2.fga_per_game)
    (hfta : b1.fta_per_game = b2.fta_per_game) :
    contribOne b1 adv c = contribOne b2 adv c := by
  unfold contribOne
  rcases h : categoryLookup (normalizeCat c) with _ | ⟨f, src, hib⟩
  · rfl
  · have hf : f ≠ "tov_per_game" := by
      intro hfe
      exact hne (categoryLookup_field_tov h hfe)
    have hsv : categoryStatValue b1 adv f src = categoryStatValue b2 adv f src := by
      cases src with
      | basic => exact hb f hf
      | advanced => rfl
    simp only [hsv, hfga, hfta]

/-- A category whose normalized code is `TOV` contributes exactly the negated
turnover value. -/
theorem contribOne_tov (b : BasicStatsModel) (adv : Option AdvancedStatsModel)
    (c : String) (hc : normalizeCat c = "TOV") (t : ℚ) (hb : b.tov_per_game = some t) :
    contribOne b adv c = -t := by
  unfold contribOne
  rw [hc, show categoryLookup "TOV" = some ("tov_per_game", StatSource.basic, false) from by decide]
  simp [categoryStatValue, getattrBasicStat, hb]

/-- Shifting only the turnover value shifts the total score by the number of
TOV-normalized request entries times the (negated) difference. -/
theorem scoreCategories_tov_shift (b : BasicStatsModel) (adv : Option AdvancedStatsModel)
    (t1 t2 : ℚ) (cats : List String) :
    (scoreCategories { b with tov_per_game := some t1 } adv cats).2 =
      (scoreCategories { b with tov_per_game := some t2 } adv cats).2 +
        (cats.countP (fun c => normalizeCat c == "TOV") : ℚ) * (t2 - t1) := by
  induction cats with
  | nil => simp [scoreCategories]
  | cons c rest ih =>
    simp only [scoreCategories, List.countP_cons]
    by_cases hc : normalizeCat c = "TOV"
    · rw [contribOne_tov _ adv c hc t1 rfl, contribOne_tov _ adv c hc t2 rfl, ih]
      have hcb : (normalizeCat c == "TOV") = true := by simp [hc]
      simp only [hcb, if_true]
      push_cast
      ring
    · rw [contribOne_congr { b with tov_per_game := some t1 }
          { b with tov_per_game := some t2 } adv c hc
          (fun f hf => by
            rw [getattrBasicStat_update_tov b (some t1) f hf,
              getattrBasicStat_update_tov b (some t2) f hf])
          rfl rfl, ih]
      have hcb : (normalizeCat c == "TOV") = false := by
        simp [hc]
      simp only [hcb, Bool.false_eq_true, if_false]
      push_cast
      ring

/-- A bundle holding exactly one regular season, the shape used by
candidate-level theorems. -/
def soloRegularBundle (sid team : String) (age : Option ℤ) (b : BasicStatsModel)
    (adv : Option AdvancedStatsModel) : PlayerDataBundle :=
  PlayerDataBundle.mk (some [SeasonStats.mk sid team age (some b) adv]) none none none

theorem calculate_on_solo (sid team : String) (age : Option ℤ) (b : BasicStatsModel)
    (adv : Option AdvancedStatsModel) (cats : List String) (nm : String) :
    calculate_heuristic_score_for_player (soloRegularBundle sid team age b adv) cats nm =
      some { player_id := b.gp.getD 0, full_name := nm,
             recommendation_score := pyRound (scoreCategories b adv cats).2 2,
             targeted_category_stats := (scoreCategories b adv cats).1,
             latest_season_summary_brief :=
               { gp := b.gp, minutes := b.min_per_game, pts := b.pts_per_game,
                 reb := b.reb_per_game, ast := b.ast_per_game, team := team } } := by
  rfl

theorem processCandidate_on_solo (sid team : String) (age : Option ℤ) (b : BasicStatsModel)
    (adv : Option AdvancedStatsModel) (cats : List String) (nm : String)
    (helig : eligibilityPasses b.gp b.min_per_game = true) :
    processCandidate (some (soloRegularBundle sid team age b adv)) cats nm =
      some { player_id := b.gp.getD 0, full_name := nm,
             recommendation_score := pyRound (scoreCategories b adv cats).2 2,
             targeted_category_stats := (scoreCategories b adv cats).1,
             latest_season_summary_brief :=
               { gp := b.gp, minutes := b.min_per_game, pts := b.pts_per_game,
                 reb := b.reb_per_game, ast := b.ast_per_game, team := team } } := by
  rw [← calculate_on_solo sid team age b adv cats nm]
  simp [processCandidate, soloRegularBundle, helig]

/-- Claim C6: a `TOV` request contributes exactly the negated turnover value
(the directional flag does not negate it a second time), so of two eligible
candidates identical except for their turnovers, the one with fewer turnovers
gets the strictly higher rounded score and is ranked first by the endpoint
even when it comes later in the pool.  Turnover values are 1-decimal
rationals, as the row parser produces. -/
theorem claim_c6_tov_sign (b : BasicStatsModel) (adv : Option AdvancedStatsModel)
    (sid team : String) (age : Option ℤ) (nm1 nm2 : String) (cats : List String)
    (t1 t2 : ℤ) (hmem : "TOV" ∈ cats) (hlt : t1 < t2)
    (helig : eligibilityPasses b.gp b.min_per_game = true) :
    contribOne { b with tov_per_game := some ((t1 : ℚ) / 10) } adv "TOV" = -((t1 : ℚ) / 10)
    ∧ (∃ rp1 rp2,
        processCandidate (some (soloRegularBundle sid team age
          { b with tov_per_game := some ((t1 : ℚ) / 10) } adv)) cats nm1 = some rp1
        ∧ processCandidate (some (soloRegularBundle sid team age
          { b with tov_per_game := some ((t2 : ℚ) / 10) } adv)) cats nm2 = some rp2
        ∧ rp2.recommendation_score < rp1.recommendation_score)
    ∧ (get_category_recommendations
        [(2, nm2, some (soloRegularBundle sid team age
            { b with tov_per_game := some ((t2 : ℚ) / 10) } adv)),
         (1, nm1, some (soloRegularBundle sid team age
            { b with tov_per_game := some ((t1 : ℚ) / 10) } adv))] cats 2 []).map
        (fun rp => rp.player_id) = [1, 2] := by
  have hnorm : normalizeCat "TOV" = "TOV" := by decide
  have hcount : 0 < cats.countP (fun c => normalizeCat c == "TOV") :=
    List.countP_pos_iff.2 ⟨"TOV", hmem, by simp [hnorm]⟩
  have hshift := scoreCategories_tov_shift b adv ((t1 : ℚ) / 10) ((t2 : ℚ) / 10) cats
  have hgap : (scoreCategories { b with tov_per_game := some ((t2 : ℚ) / 10) } adv cats).2 + 1/10 ≤
      (scoreCategories { b with tov_per_game := some ((t1 : ℚ) / 10) } adv cats).2 := by
    rw [hshift]
    have h1 : (1 : ℚ) ≤ (cats.countP (fun c => normalizeCat c == "TOV") : ℚ) := by
      exact_mod_cast hcount
    have hle : (t1 : ℚ) + 1 ≤ (t2 : ℚ) := by exact_mod_cast Int.add_one_le_iff.2 hlt
    have h2 : (1 : ℚ)/10 ≤ (t2 : ℚ) / 10 - (t1 : ℚ) / 10 := by linarith
    have h3 : (0:ℚ) ≤ (t2 : ℚ) / 10 - (t1 : ℚ) / 10 := le_trans (by norm_num) h2
    have h4 := mul_le_mul_of_nonneg_right h1 h3
    linarith
  have hscore := pyRound_two_strict hgap
  have hp1 := processCandidate_on_solo sid team age
    { b with tov_per_game := some ((t1 : ℚ) / 10) } adv cats nm1 helig
  have hp2 := processCandidate_on_solo sid team age
    { b with tov_per_game := some ((t2 : ℚ) / 10) } adv cats nm2 helig
  refine ⟨contribOne_tov _ adv "TOV" hnorm _ rfl, ⟨_, _, hp1, hp2, hscore⟩, ?_⟩
  have hns : ¬ (pyRound (scoreCategories { b with tov_per_game := some ((t1 : ℚ) / 10) }
      adv cats).2 2 ≤ pyRound (scoreCategories { b with tov_per_game := some ((t2 : ℚ) / 10) }
      adv cats).2 2) := not_le.2 hscore
  unfold get_category_recommendations
  simp only [List.filterMap_cons, List.filterMap_nil, hp1, hp2, List.not_mem_nil,
    if_false, Option.map_some]
  simp [List.insertionSort, List.orderedInsert, hns]

/-- Witness for claim C6: the lower-turnover candidate (0.5 per game) placed
second in the pool is ranked above the higher-turnover one (2.0 per game). -/
theorem claim_c6_tov_sign_witness :
    (get_category_recommendations
      [(2, "Player Six", some (soloRegularBundle "2022-23" "XYZ" (some 25)
          { witnessBasic with tov_per_game := some (((20 : ℤ) : ℚ) / 10) } (some witnessAdvanced))),
       (1, "Player Three", some (soloRegularBundle "2022-23" "XYZ" (some 25)
          { witnessBasic with tov_per_game := some (((5 : ℤ) : ℚ) / 10) } (some witnessAdvanced)))]
      ["TOV"] 2 []).map (fun rp => rp.player_id) = [1, 2] :=
  (claim_c6_tov_sign witnessBasic (some witnessAdvanced) "2022-23" "XYZ" (some 25)
    "Player Three" "Player Six" ["TOV"] 5 20 (by decide) (by decide) (by decide)).2.2

theorem eligibilityPasses_none_left (m : Option ℚ) : eligibilityPasses none m = false := rfl

theorem eligibilityPasses_none_right (g : Option ℤ) : eligibilityPasses g none = false := by
  cases g <;> rfl

/-- Claim C7: for numeric games-played and minutes, the filter passes exactly
when gp is at least 10 and minutes per game at least 15.0; gp 9 is excluded
and gp 10 included at minutes above threshold; the endpoint loop skips a
candidate failing the filter and scores one passing it. -/
theorem claim_c7_thresholds :
    (∀ (g : ℤ) (m : ℚ), eligibilityPasses (some g) (some m) = true ↔ (10 ≤ g ∧ 15 ≤ m))
    ∧ eligibilityPasses (some 9) (some 20) = false
    ∧ eligibilityPasses (some 10) (some 20) = true
    ∧ (∀ sid team age b adv cats nm (g : ℤ) (m : ℚ),
        b.gp = some g → b.min_per_game = some m →
        ((g < 10 ∨ m < 15) →
          processCandidate (some (soloRegularBundle sid team age b adv)) cats nm = none)
        ∧ ((10 ≤ g ∧ 15 ≤ m) →
          processCandidate (some (soloRegularBundle sid team age b adv)) cats nm =
            calculate_heuristic_score_for_player (soloRegularBundle sid team age b adv) cats nm)) := by
  have hiff : ∀ (g : ℤ) (m : ℚ),
      eligibilityPasses (some g) (some m) = true ↔ (10 ≤ g ∧ 15 ≤ m) := by
    intro g m
    unfold eligibilityPasses MIN_GAMES_PLAYED_THRESHOLD MIN_MINUTES_PER_GAME_THRESHOLD
    rw [Bool.and_eq_true, Bool.and_eq_true, Bool.and_eq_true, decide_eq_true_eq,
      decide_eq_true_eq]
    constructor
    · rintro ⟨⟨⟨-, -⟩, h3⟩, h4⟩
      exact ⟨h3, h4⟩
    · rintro ⟨h3, h4⟩
      refine ⟨⟨⟨?_, ?_⟩, h3⟩, h4⟩
      · rw [Bool.not_eq_true', beq_eq_false_iff_ne]
        omega
      · rw [Bool.not_eq_true', beq_eq_false_iff_ne]
        intro hm0
        rw [hm0] at h4
        norm_num at h4
  refine ⟨hiff, by decide, by decide, ?_⟩
  intro sid team age b adv cats nm g m hg hm
  constructor
  · intro hbad
    have hef : eligibilityPasses b.gp b.min_per_game = false := by
      rw [hg, hm]
      rcases (eligibilityPasses (some g) (some m)).eq_false_or_eq_true with h | h
      · rcases (hiff g m).1 h with ⟨h10, h15⟩
        rcases hbad with hb1 | hb1
        · omega
        · linarith
      · exact h
    simp [processCandidate, soloRegularBundle, hef]
  · intro hgood
    have het : eligibilityPasses b.gp b.min_per_game = true := by
      rw [hg, hm]
      exact (hiff g m).2 hgood
    simp [processCandidate, soloRegularBundle, het]

/-- Witness for claim C7: a candidate at the gp 9 boundary is rejected, one at
gp 10 with 30 minutes is passed through to scoring. -/
theorem claim_c7_thresholds_witness :
    processCandidate (some (soloRegularBundle "2022-23" "XYZ" (some 25)
        { witnessBasic with gp := some 9 } (some witnessAdvanced))) ["PTS"] "Player Four" = none
    ∧ processCandidate (some (soloRegularBundle "2022-23" "XYZ" (some 25)
        { witnessBasic with gp := some 10 } (some witnessAdvanced))) ["PTS"] "Player Ten" =
      calculate_heuristic_score_for_player (soloRegularBundle "2022-23" "XYZ" (some 25)
        { witnessBasic with gp := some 10 } (some witnessAdvanced)) ["PTS"] "Player Ten" :=
  ⟨(claim_c7_thresholds.2.2.2 "2022-23" "XYZ" (some 25) _ (some witnessAdvanced) ["PTS"]
      "Player Four" 9 30 rfl rfl).1 (Or.inl (by norm_num)),
   (claim_c7_thresholds.2.2.2 "2022-23" "XYZ" (some 25) _ (some witnessAdvanced) ["PTS"]
      "Player Ten" 10 30 rfl rfl).2 ⟨by norm_num, by norm_num⟩⟩

/-- Claim C10: a candidate whose latest regular-season basic stats lack a
games-played or minutes value never passes the playing-time filter — missing
playing-time data means exclusion, not passage and not an error — and such a
pool entry contributes nothing to the returned recommendations. -/
theorem claim_c10_missing_playing_time (d : PlayerDataBundle) (cats : List String)
    (nm : String) (l : List SeasonStats) (latest : SeasonStats) (b : BasicStatsModel)
    (hl : d.historical_regular_seasons = some l) (hlast : l.getLast? = some latest)
    (hb : latest.basic_stats = some b)
    (hmiss : b.gp = none ∨ b.min_per_game = none) :
    processCandidate (some d) cats nm = none
    ∧ ∀ (pool1 pool2 : List (ℤ × String × Option PlayerDataBundle)) (pid : ℤ)
        (num : ℕ) (excl : List ℤ),
        get_category_recommendations (pool1 ++ (pid, nm, some d) :: pool2) cats num excl =
          get_category_recommendations (pool1 ++ pool2) cats num excl := by
  have hef : eligibilityPasses b.gp b.min_per_game = false := by
    rcases hmiss with h | h
    · rw [h]
      exact eligibilityPasses_none_left _
    · rw [h]
      exact eligibilityPasses_none_right _
  have hnone : processCandidate (some d) cats nm = none := by
    simp [processCandidate, hl, hlast, hb, hef]
  refine ⟨hnone, ?_⟩
  intro pool1 pool2 pid num excl
  unfold get_category_recommendations
  simp [List.filterMap_append, List.filterMap_cons, hnone]

def witnessBasicNoGp : BasicStatsModel := { witnessBasic with gp := none }

/-- Witness for claim C10 at a candidate with no games-played value. -/
theorem claim_c10_missing_playing_time_witness :
    processCandidate (some (soloRegularBundle "2022-23" "XYZ" (some 25)
        witnessBasicNoGp (some witnessAdvanced))) ["PTS"] "Player Nil" = none :=
  (claim_c10_missing_playing_time
    (soloRegularBundle "2022-23" "XYZ" (some 25) witnessBasicNoGp (some witnessAdvanced))
    ["PTS"] "Player Nil"
    [SeasonStats.mk "2022-23" "XYZ" (some 25) (some witnessBasicNoGp) (some witnessAdvanced)]
    (SeasonStats.mk "2022-23" "XYZ" (some 25) (some witnessBasicNoGp) (some witnessAdvanced))
    witnessBasicNoGp rfl rfl rfl (Or.inl rfl)).1

/-- pydantic annotations occurring in the `PlayerStatsSummary` schema, plus
the plain numeric annotations the lineup aggregator's filter also accepts. -/
inductive PyAnn where
  | optFloat : PyAnn
  | optInt : PyAnn
  | floatPlain : PyAnn
  | intPlain : PyAnn
  | optUnionStrFloat : PyAnn
  | optStr : PyAnn
deriving DecidableEq, BEq

/-- `PlayerStatsSummary.model_fields` in declaration order with each field's
annotation. -/
def summarySchema : List (String × PyAnn) :=
  [("points_per_game", .optFloat), ("true_shooting_pct", .optFloat),
   ("rebounds_per_game", .optFloat), ("assists_per_game", .optFloat),
   ("steals_per_game", .optFloat), ("blocks_per_game", .optFloat),
   ("turnovers_per_game", .optFloat), ("fg_pct", .optFloat), ("fg3_pct", .optFloat),
   ("ft_pct", .optFloat), ("minutes_per_game", .optFloat),
   ("usage_rate", .optUnionStrFloat), ("team", .optStr)]

/-- A pydantic v2 `FieldInfo`, modelled by its annotation: it carries no
`name` attribute (the field name is the `model_fields` dict key), so
accessing `f.name` raises AttributeError. -/
def fieldInfoName (_ : PyAnn) : Except PyErr String := .error .attributeError

/-- `PlayerStatsSummary.model_fields.values()`: the FieldInfo objects,
modelled by their annotations; the dict keys (the field names) are not part
of these values. -/
def fieldInfoValues : List PyAnn := summarySchema.map Prod.snd

/-- `numeric_fields` of `get_lineup_stats` (src/app/main.py line 371):
`[f.name for f in PlayerStatsSummary.model_fields.values() if f.annotation
in [Optional[float], Optional[int], float, int] and f.name != "team"]`.
The annotation test on the first field (`points_per_game`,
`Optional[float]`) passes, so `f.name` is evaluated — and that raises
AttributeError under pydantic v2, which this code requires
(`model_dump`/`model_fields`/`model_dump_json`): the enumeration never
completes.  A hypothetical schema with no accepted annotation would make the
comprehension finish empty, hence the fold shape. -/
def numeric_fields : Except PyErr (List String) :=
  fieldInfoValues.foldlM (fun acc f =>
    if f == PyAnn.optFloat || f == PyAnn.optInt || f == PyAnn.floatPlain ||
        f == PyAnn.intPlain then do
      let nm ← fieldInfoName f
      if nm == "team" then pure acc
      else do
        let nmOut ← fieldInfoName f
        pure (acc ++ [nmOut])
    else pure acc) []

/-- `p_summary_dict.get(field)` on the `model_dump(exclude_none=True)` dict,
combined with the `isinstance(value, (int, float))` check: the numeric value
when the field is set and numeric, nothing otherwise (`team` holds a string
and fails the isinstance check). -/
def summaryGet (s : PlayerStatsSummary) (field : String) : Option ℚ :=
  if field = "points_per_game" then s.points_per_game
  else if field = "true_shooting_pct" then s.true_shooting_pct
  else if field = "rebounds_per_game" then s.rebounds_per_game
  else if field = "assists_per_game" then s.assists_per_game
  else if field = "steals_per_game" then s.steals_per_game
  else if field = "blocks_per_game" then s.blocks_per_game
  else if field = "turnovers_per_game" then s.turnovers_per_game
  else if field = "fg_pct" then s.fg_pct
  else if field = "fg3_pct" then s.fg3_pct
  else if field = "ft_pct" then s.ft_pct
  else if field = "minutes_per_game" then s.minutes_per_game
  else if field = "usage_rate" then s.usage_rate
  else none

/-- The output key for one aggregated field: `avg_` or `total_` prefix. -/
def aggKey (metricAvg : Bool) (field : String) : String :=
  (if metricAvg then "avg_" else "total_") ++ field

/-- Per-field aggregation of `get_lineup_stats` (lines 372-376): collect the
present numeric values across the roster; nothing when none are present, else
the 2-decimal rounded arithmetic mean (avg) or sum (total). -/
def aggValue (roster : List (Option PlayerStatsSummary)) (metricAvg : Bool)
    (field : String) : Option ℚ :=
  let values := roster.filterMap (fun e => e.bind (fun s => summaryGet s field))
  if values.isEmpty then none
  else if metricAvg then some (pyRound (values.sum / (values.length : ℚ)) 2)
  else some (pyRound values.sum 2)

/-- The aggregation loop of lines 372-376, parameterized by the enumerated
field list it would iterate: one entry per field with at least one present
value, in order.  Unreachable in the program, because the enumeration
raises before the loop starts. -/
def aggregateFields (nf : List String) (roster : List (Option PlayerStatsSummary))
    (metricAvg : Bool) : List (String × ℚ) :=
  nf.filterMap (fun f => (aggValue roster metricAvg f).map (fun v => (aggKey metricAvg f, v)))

/-- The aggregated-stats computation of `get_lineup_stats` (lines 370-376):
evaluate the `numeric_fields` comprehension — which raises AttributeError —
then run the loop.  It therefore raises on every execution. -/
def get_lineup_aggregate (roster : List (Option PlayerStatsSummary)) (metricAvg : Bool) :
    Except PyErr (List (String × ℚ)) := do
  let nf ← numeric_fields
  pure (aggregateFields nf roster metricAvg)

/-- The per-player loop of `get_lineup_stats` (lines 354-368) over players
that all resolved: a raised data fetch aborts the request with the 500 error;
otherwise the player's latest-regular-season summary — or an empty dict when
there is none — joins the roster. -/
def collectLineup : List (String × Except Unit PlayerDataBundle) →
    Except String (List String × List (Option PlayerStatsSummary))
  | [] => .ok ([], [])
  | (nm, fetch) :: rest =>
    match fetch with
    | .error _ => .error ("Error retrieving data for player " ++ nm ++ " in lineup.")
    | .ok d => do
      let tail ← collectLineup rest
      .ok (nm :: tail.1, projectLatestSummary d.historical_regular_seasons :: tail.2)

structure LineupResponse where
  lineup_players : List String
  aggregated_stats : List (String × ℚ)
deriving DecidableEq

/-- A 500-equivalent failure of the lineup endpoint: an explicit
HTTPException with its detail string, or the unhandled AttributeError from
the numeric-field enumeration (FastAPI turns both into a 500 response). -/
inductive LineupError where
  | httpException : String → LineupError
  | attributeError : LineupError
deriving DecidableEq

/-- The tail of `get_lineup_stats` after the per-player loop (lines 369-377):
the "no summary stats" HTTPException for an empty aggregation list, and
otherwise the numeric-field enumeration of line 371, which raises
AttributeError before any aggregated output can be built. -/
def lineupAfterCollect (metricAvg : Bool) :
    Except String (List String × List (Option PlayerStatsSummary)) →
      Except LineupError LineupResponse
  | .error e => .error (LineupError.httpException e)
  | .ok pr =>
    if pr.2.isEmpty then
      .error (LineupError.httpException
        "Could not retrieve any summary stats for the lineup players.")
    else
      match numeric_fields with
      | .error _ => .error LineupError.attributeError
      | .ok nf => .ok (LineupResponse.mk pr.1 (aggregateFields nf pr.2 metricAvg))

/-- `get_lineup_stats` (lines 350-377) for a request in which every player
name resolves: collect names and summaries, then run the post-loop tail. -/
def get_lineup_stats (playersData : List (String × Except Unit PlayerDataBundle))
    (metricAvg : Bool) : Except LineupError LineupResponse :=
  lineupAfterCollect metricAvg (collectLineup playersData)

/-- A summary whose only set numeric value is a usage rate of 0.32. -/
def usageOnlySummary : PlayerStatsSummary :=
  { points_per_game := none, true_shooting_pct := none, rebounds_per_game := none,
    assists_per_game := none, steals_per_game := none, blocks_per_game := none,
    turnovers_per_game := none, fg_pct := none, fg3_pct := none, ft_pct := none,
    minutes_per_game := none, usage_rate := some 0.32, team := some "LAL" }

def lineupPtsSummaryA : PlayerStatsSummary :=
  { usageOnlySummary with usage_rate := none, points_per_game := some 28.9 }

def lineupPtsSummaryB : PlayerStatsSummary :=
  { usageOnlySummary with usage_rate := none, points_per_game := some 24.1, team := some "DEN" }

/-- Claim C8 counterexample: at the claim's own example roster (points per
game 28.9 and 24.1, metric avg) the aggregation produces no
`avg_points_per_game` entry — nor anything else: the numeric-field
enumeration raises AttributeError before any value is aggregated.  The same
happens for a roster member with a numeric usage rate, so no
`avg_usage_rate` entry can exist either. -/
theorem claim_c8_no_output_counterexample :
    get_lineup_aggregate [some lineupPtsSummaryA, some lineupPtsSummaryB] true =
      .error PyErr.attributeError
    ∧ lineupPtsSummaryA.points_per_game = some 28.9
    ∧ lineupPtsSummaryB.points_per_game = some 24.1
    ∧ get_lineup_aggregate [some usageOnlySummary] true = .error PyErr.attributeError
    ∧ usageOnlySummary.usage_rate = some 0.32 :=
  ⟨rfl, rfl, rfl, rfl, rfl⟩

/-- Claim C8 (amended): the aggregation is unreachable.  The numeric-field
enumeration of line 371 accesses `f.name` on pydantic v2 `FieldInfo`
objects, which have no `name` attribute; the annotation test on the first
(`Optional[float]`) field passes, so the access is always reached and raises
AttributeError.  Hence for every roster and both metrics no aggregated
field — neither the float fields nor any usage-rate entry — is ever
emitted. -/
theorem claim_c8_aggregation_raises :
    numeric_fields = Except.error PyErr.attributeError
    ∧ ∀ (roster : List (Option PlayerStatsSummary)) (metricAvg : Bool),
        get_lineup_aggregate roster metricAvg = Except.error PyErr.attributeError :=
  ⟨rfl, fun _ _ => rfl⟩

def emptyBundle : PlayerDataBundle := PlayerDataBundle.mk none none none none

theorem collectLineup_ok (l : List (String × Except Unit PlayerDataBundle))
    (h : ∀ p ∈ l, p.2.isOk = true) :
    ∃ names roster, collectLineup l = .ok (names, roster) ∧ roster.length = l.length := by
  induction l with
  | nil => exact ⟨[], [], rfl, rfl⟩
  | cons p rest ih =>
    obtain ⟨nm, fetch⟩ := p
    cases fetch with
    | error e =>
      have hh := h (nm, .error e) (List.mem_cons_self _ _)
      simp [Except.isOk, Except.toBool] at hh
    | ok d =>
      obtain ⟨names, roster, hcol, hlen⟩ := ih (fun q hq => h q (List.mem_cons_of_mem _ hq))
      refine ⟨nm :: names, projectLatestSummary d.historical_regular_seasons :: roster, ?_, ?_⟩
      · show (do
          let tail ← collectLineup rest
          Except.ok (nm :: tail.1,
            projectLatestSummary d.historical_regular_seasons :: tail.2) :
              Except String _) = _
        rw [hcol]
        rfl
      · simp [hlen]

theorem collectLineup_err (l : List (String × Except Unit PlayerDataBundle))
    (h : ∃ p ∈ l, p.2.isOk = false) :
    ∃ e, collectLineup l = .error e := by
  induction l with
  | nil =>
    obtain ⟨p, hp, -⟩ := h
    cases hp
  | cons p rest ih =>
    obtain ⟨nm, fetch⟩ := p
    cases fetch with
    | error e => exact ⟨_, rfl⟩
    | ok d =>
      obtain ⟨q, hq, hqf⟩ := h
      rcases List.mem_cons.1 hq with rfl | hq2
      · simp [Except.isOk, Except.toBool] at hqf
      · obtain ⟨e, hcol⟩ := ih ⟨q, hq2, hqf⟩
        refine ⟨e, ?_⟩
        show (do
          let tail ← collectLineup rest
          Except.ok (nm :: tail.1,
            projectLatestSummary d.historical_regular_seasons :: tail.2) :
              Except String _) = _
        rw [hcol]
        rfl

/-- Claim C9 counterexample: a one-player lineup whose bundle does yield a
latest-season summary still fails with a 500-equivalent (the AttributeError
of the numeric-field enumeration), so a 500 does not imply that no player
yielded a summary. -/
theorem claim_c9_summary_still_500_counterexample :
    get_lineup_stats [("Player One", Except.ok (soloRegularBundle "2022-23" "XYZ" (some 25)
        witnessBasic (some witnessAdvanced)))] true = .error LineupError.attributeError
    ∧ (projectLatestSummary (soloRegularBundle "2022-23" "XYZ" (some 25) witnessBasic
        (some witnessAdvanced)).historical_regular_seasons).isSome = true :=
  ⟨rfl, rfl⟩

/-- Claim C9 (amended): with every player name resolving, the lineup
endpoint fails with a 500-equivalent on every execution — the "no summary
stats" HTTPException for an empty player list, the per-player retrieval
HTTPException when a data fetch raises, and otherwise the unhandled
AttributeError from the numeric-field enumeration.  A successful response is
unreachable. -/
theorem claim_c9_lineup_always_500 :
    (∀ (l : List (String × Except Unit PlayerDataBundle)) (metricAvg : Bool),
      (get_lineup_stats l metricAvg).isOk = false)
    ∧ (∀ metricAvg, get_lineup_stats [] metricAvg =
        .error (LineupError.httpException
          "Could not retrieve any summary stats for the lineup players."))
    ∧ (∀ (l : List (String × Except Unit PlayerDataBundle)) (metricAvg : Bool),
        (∃ p ∈ l, p.2.isOk = false) →
        ∃ e, get_lineup_stats l metricAvg = .error (LineupError.httpException e))
    ∧ (∀ (l : List (String × Except Unit PlayerDataBundle)) (metricAvg : Bool),
        l ≠ [] → (∀ p ∈ l, p.2.isOk = true) →
        get_lineup_stats l metricAvg = .error LineupError.attributeError) := by
  refine ⟨?_, fun metricAvg => rfl, ?_, ?_⟩
  · intro l metricAvg
    unfold get_lineup_stats
    cases hcol : collectLineup l with
    | error e => rfl
    | ok pr =>
      simp only [lineupAfterCollect]
      by_cases hemp : pr.2.isEmpty = true
      · rw [if_pos hemp]
        rfl
      · rw [if_neg hemp]
        rfl
  · intro l metricAvg h
    obtain ⟨e, hcol⟩ := collectLineup_err l h
    refine ⟨e, ?_⟩
    unfold get_lineup_stats
    rw [hcol]
    rfl
  · intro l metricAvg hne hok
    obtain ⟨names, roster, hcol, hlen⟩ := collectLineup_ok l hok
    have hrne : roster ≠ [] := by
      intro hr
      apply hne
      rw [hr] at hlen
      exact List.length_eq_zero.1 hlen.symm
    have hemp : roster.isEmpty = false := by
      cases roster with
      | nil => exact absurd rfl hrne
      | cons a as => rfl
    unfold get_lineup_stats
    rw [hcol]
    simp only [lineupAfterCollect]
    rw [if_neg (by simp [hemp])]
    rfl

/-- Witness for claim C9: a one-player lineup with an empty data bundle
also dies at the numeric-field enumeration. -/
theorem claim_c9_lineup_always_500_witness :
    get_lineup_stats [("test-player-with-no-data", Except.ok emptyBundle)] true =
      .error LineupError.attributeError :=
  claim_c9_lineup_always_500.2.2.2 [("test-player-with-no-data", Except.ok emptyBundle)] true
    (by intro h; cases h)
    (by
      intro p hp
      rcases List.mem_cons.1 hp with rfl | h0
      · rfl
      · cases h0)

def nanGpRow : Row := Row.mk "2022-23" (some "LAL") PyVal.vNone [("GP", PyVal.vNaN)]

/-- Claim C2 counterexample: on a row whose GP cell is NaN, `safe_float`
yields None, but the parsed record's `gp` does not — `gp` is taken from the
row unmodified, so pydantic's int validation raises instead.  `gp` (and `gs`)
do not route through `safe_float`. -/
theorem claim_c2_gp_bypass_counterexample :
    (_parse_api_row_to_basic_stats nanGpRow).isOk = false
    ∧ safe_float (nanGpRow.get "GP") none = none
    ∧ safe_float (nanGpRow.get "GP") (some 1) = none :=
  ⟨rfl, rfl, rfl⟩


/-- Claim C2 (amended): `safe_float` maps a missing or NaN value to None at
any precision — never zero — and every float field of both parsed records is
exactly `safe_float` of its row cell at the fixed precision (1 decimal for
per-game counts and rates, 3 for the fractional percentages).  The exception
the claim misses: `gp`/`gs` bypass `safe_float` and are pydantic-validated
raw, and the basic parser fails exactly when that validation fails. -/
theorem claim_c2_parser_routing :
    (∀ p, safe_float PyVal.vNone p = none ∧ safe_float PyVal.vNaN p = none)
    ∧ (∀ row b, _parse_api_row_to_basic_stats row = Except.ok b →
        (validateOptInt (row.get "GP") = Except.ok b.gp
         ∧ validateOptInt (row.get "GS") = Except.ok b.gs
         ∧ b.min_per_game = safe_float (row.get "MIN") (some 1)
         ∧ b.pts_per_game = safe_float (row.get "PTS") (some 1)
         ∧ b.fgm_per_game = safe_float (row.get "FGM") (some 1)
         ∧ b.fga_per_game = safe_float (row.get "FGA") (some 1)
         ∧ b.fg_pct = safe_float (row.get "FG_PCT") (some 3)
         ∧ b.fg3m_per_game = safe_float (row.get "FG3M") (some 1)
         ∧ b.fg3a_per_game = safe_float (row.get "FG3A") (some 1)
         ∧ b.fg3_pct = safe_float (row.get "FG3_PCT") (some 3)
         ∧ b.ftm_per_game = safe_float (row.get "FTM") (some 1)
         ∧ b.fta_per_game = safe_float (row.get "FTA") (some 1)
         ∧ b.ft_pct = safe_float (row.get "FT_PCT") (some 3)
         ∧ b.oreb_per_game = safe_float (row.get "OREB") (some 1)
         ∧ b.dreb_per_game = safe_float (row.get "DREB") (some 1)
         ∧ b.reb_per_game = safe_float (row.get "REB") (some 1)
         ∧ b.ast_per_game = safe_float (row.get "AST") (some 1)
         ∧ b.tov_per_game = safe_float (row.get "TOV") (some 1)
         ∧ b.stl_per_game = safe_float (row.get "STL") (some 1)
         ∧ b.blk_per_game = safe_float (row.get "BLK") (some 1)
         ∧ b.pf_per_game = safe_float (row.get "PF") (some 1)))
    ∧ (∀ row, (_parse_api_row_to_basic_stats row).isOk = false ↔
        ((validateOptInt (row.get "GP")).isOk = false
          ∨ (validateOptInt (row.get "GS")).isOk = false))
    ∧ (∀ row, _parse_api_row_to_advanced_stats row = AdvancedStatsModel.mk
        (safe_float (row.get "OFF_RATING") (some 1))
        (safe_float (row.get "DEF_RATING") (some 1))
        (safe_float (row.get "NET_RATING") (some 1))
        (safe_float (row.get "AST_PCT") (some 3))
        (safe_float (row.get "AST_TO") (some 1))
        (safe_float (row.get "AST_RATIO") (some 1))
        (safe_float (row.get "OREB_PCT") (some 3))
        (safe_float (row.get "DREB_PCT") (some 3))
        (safe_float (row.get "REB_PCT") (some 3))
        (safe_float (row.get "TM_TOV_PCT") (some 3))
        (safe_float (row.get "EFG_PCT") (some 3))
        (safe_float (row.get "TS_PCT") (some 3))
        (safe_float (row.get "USG_PCT") (some 3))
        (safe_float (row.get "PACE") (some 1))
        (safe_float (row.get "PIE") (some 3))
        (safe_float (row.get "WS") (some 1))) := by
  refine ⟨fun p => ⟨rfl, rfl⟩, ?_, ?_, fun row => rfl⟩
  · intro row b hok
    cases hgp : validateOptInt (row.get "GP") with
    | error e =>
      exfalso
      have hpe : _parse_api_row_to_basic_stats row = .error e := by
        unfold _parse_api_row_to_basic_stats
        rw [hgp]
        rfl
      rw [hpe] at hok
      cases hok
    | ok gpv =>
      cases hgs : validateOptInt (row.get "GS") with
      | error e =>
        exfalso
        have hpe : _parse_api_row_to_basic_stats row = .error e := by
          unfold _parse_api_row_to_basic_stats
          rw [hgp, hgs]
          rfl
        rw [hpe] at hok
        cases hok
      | ok gsv =>
        have heq : _parse_api_row_to_basic_stats row = .ok (BasicStatsModel.mk gpv gsv
            (safe_float (row.get "MIN") (some 1))
            (safe_float (row.get "PTS") (some 1))
            (safe_float (row.get "FGM") (some 1))
            (safe_float (row.get "FGA") (some 1))
            (safe_float (row.get "FG_PCT") (some 3))
            (safe_float (row.get "FG3M") (some 1))
            (safe_float (row.get "FG3A") (some 1))
            (safe_float (row.get "FG3_PCT") (some 3))
            (safe_float (row.get "FTM") (some 1))
            (safe_float (row.get "FTA") (some 1))
            (safe_float (row.get "FT_PCT") (some 3))
            (safe_float (row.get "OREB") (some 1))
            (safe_float (row.get "DREB") (some 1))
            (safe_float (row.get "REB") (some 1))
            (safe_float (row.get "AST") (some 1))
            (safe_float (row.get "TOV") (some 1))
            (safe_float (row.get "STL") (some 1))
            (safe_float (row.get "BLK") (some 1))
            (safe_float (row.get "PF") (some 1))) := by
          unfold _parse_api_row_to_basic_stats
          rw [hgp, hgs]
          rfl
        rw [heq] at hok
        cases hok
        exact ⟨rfl, rfl, rfl, rfl, rfl, rfl, rfl, rfl, rfl, rfl, rfl, rfl, rfl, rfl, rfl, rfl, rfl, rfl, rfl, rfl, rfl⟩
  · intro row
    cases hgp : validateOptInt (row.get "GP") with
    | error e =>
      have hpe : _parse_api_row_to_basic_stats row = .error e := by
        unfold _parse_api_row_to_basic_stats
        rw [hgp]
        rfl
      rw [hpe]
      simp [Except.isOk, Except.toBool]
    | ok gpv =>
      cases hgs : validateOptInt (row.get "GS") with
      | error e =>
        have hpe : _parse_api_row_to_basic_stats row = .error e := by
          unfold _parse_api_row_to_basic_stats
          rw [hgp, hgs]
          rfl
        rw [hpe]
        simp [Except.isOk, Except.toBool]
      | ok gsv =>
        have heq : _parse_api_row_to_basic_stats row = .ok (BasicStatsModel.mk gpv gsv
            (safe_float (row.get "MIN") (some 1))
            (safe_float (row.get "PTS") (some 1))
            (safe_float (row.get "FGM") (some 1))
            (safe_float (row.get "FGA") (some 1))
            (safe_float (row.get "FG_PCT") (some 3))
            (safe_float (row.get "FG3M") (some 1))
            (safe_float (row.get "FG3A") (some 1))
            (safe_float (row.get "FG3_PCT") (some 3))
            (safe_float (row.get "FTM") (some 1))
            (safe_float (row.get "FTA") (some 1))
            (safe_float (row.get "FT_PCT") (some 3))
            (safe_float (row.get "OREB") (some 1))
            (safe_float (row.get "DREB") (some 1))
            (safe_float (row.get "REB") (some 1))
            (safe_float (row.get "AST") (some 1))
            (safe_float (row.get "TOV") (some 1))
            (safe_float (row.get "STL") (some 1))
            (safe_float (row.get "BLK") (some 1))
            (safe_float (row.get "PF") (some 1))) := by
          unfold _parse_api_row_to_basic_stats
          rw [hgp, hgs]
          rfl
        rw [heq]
        simp [Except.isOk, Except.toBool]

def emptyStatsRow : Row := Row.mk "" none PyVal.vNone []

def allNoneBasic : BasicStatsModel := BasicStatsModel.mk none none none none none none
  none none none none none none none none none none none none none none none

/-- Witness for claim C2 at the empty row, whose parse succeeds with every
field empty. -/
theorem claim_c2_parser_routing_witness :
    validateOptInt (emptyStatsRow.get "GP") = Except.ok allNoneBasic.gp
    ∧ validateOptInt (emptyStatsRow.get "GS") = Except.ok allNoneBasic.gs
    ∧ allNoneBasic.min_per_game = safe_float (emptyStatsRow.get "MIN") (some 1)
    ∧ allNoneBasic.fg_pct = safe_float (emptyStatsRow.get "FG_PCT") (some 3) := by
  have h := claim_c2_parser_routing.2.1 emptyStatsRow allNoneBasic rfl
  exact ⟨h.1, h.2.1, h.2.2.1, h.2.2.2.2.2.2.1⟩

/-- Witness for claim C5: an unrecognized code is recorded null and scores
zero for a concrete candidate. -/
theorem claim_c5_category_handling_witness :
    recordedOne witnessBasic (some witnessAdvanced) "NONSENSE_CAT" = none
    ∧ contribOne witnessBasic (some witnessAdvanced) "NONSENSE_CAT" = 0 :=
  claim_c5_category_handling.2.2.2.1 witnessBasic (some witnessAdvanced) "NONSENSE_CAT"
    (by decide)
